import Mathlib

/-! # Ford safety hooks (board/safety/safety_ford.h)

A shallow embedding of the transmit gatekeeper `ford_tx_hook`, the bus
forwarder `ford_fwd_hook`, the receive hook `ford_rx_hook` and `ford_init`,
followed by theorems about them.

Conventions of the embedding:

* C `int` and `unsigned int` values that cannot overflow here are `Nat` or `Int`;
  a `uint8_t` read is reduced `% 256`.
* C `bool` is `Bool`.
* C `float` and `double` values are carried as the rationals (`ℚ`) they
  denote.  In `ford_rx_hook` every `double` operation and every store to a
  `float` rounds to the format (`to_double`, `to_float`: nearest, ties to
  even); the exponent range is not modelled, no value that arises there leaves
  it.  The band locals of `ford_tx_hook`, which no statement reads, are carried
  without rounding; no verdict of `ford_tx_hook` depends on a float value.
* The hooks read and write globals; the globals are gathered in `SafetyState`
  and passed explicitly.  A hook returns its C return value together with the
  state and the frame it leaves behind.
* The functions of the safety framework that `ford_rx_hook` calls
  (`addr_safety_check`, `update_sample`, `pcm_cruise_check`,
  `generic_rx_checks`) are defined outside `safety_ford.h`; the hook takes
  them as a parameter of type `Framework`.
-/

set_option linter.unusedVariables false

namespace Ford

/-! ## Frames and accessors -/

/-- Modelled from the spec: the frame type `CANPacket_t` is declared outside
`safety_ford.h`.  Section 6 of the spec describes a frame as a tuple
(bus id, address, length, byte payload); `data b` is payload byte `b`. -/
structure CANPacket_t where
  addr : Nat
  bus : Nat
  len : Nat
  data : Nat → Nat

/-- Modelled from the spec: accessor macro `GET_ADDR`, the frame address. -/
def GET_ADDR (msg : CANPacket_t) : Nat := msg.addr

/-- Modelled from the spec: accessor macro `GET_BUS`, the frame bus id. -/
def GET_BUS (msg : CANPacket_t) : Nat := msg.bus

/-- Modelled from the spec: accessor macro `GET_LEN`, the frame length. -/
def GET_LEN (msg : CANPacket_t) : Nat := msg.len

/-- Modelled from the spec: accessor macro `GET_BYTE`, payload byte `b` as a
`uint8_t`. -/
def GET_BYTE (msg : CANPacket_t) (b : Nat) : Nat := msg.data b % 256

/-- Modelled from the spec: accessor macro `GET_BIT`; payload bit `b` is bit
`b % 8` of payload byte `b / 8`. -/
def GET_BIT (msg : CANPacket_t) (b : Nat) : Nat :=
  (GET_BYTE msg (b / 8) >>> (b % 8)) &&& 1

/-! ## Message identifiers and tables -/

def MSG_EngBrakeData : Nat := 0x165
def MSG_EngVehicleSpThrottle : Nat := 0x204
def MSG_DesiredTorqBrk : Nat := 0x213
def MSG_BrakeSysFeatures : Nat := 0x415
def MSG_Yaw_Data_FD1 : Nat := 0x91
def MSG_Steering_Data_FD1 : Nat := 0x083
def MSG_ACCDATA_3 : Nat := 0x18A
def MSG_Lane_Assist_Data1 : Nat := 0x3CA
def MSG_LateralMotionControl : Nat := 0x3D3
def MSG_IPMA_Data : Nat := 0x3D8

def FORD_MAIN_BUS : Nat := 0
def FORD_CAM_BUS : Nat := 2

/-- Modelled from the spec: the Message Descriptor `CanMsg`
{address, bus, expected length} is declared outside `safety_ford.h`. -/
structure CanMsg where
  addr : Nat
  bus : Nat
  len : Nat
deriving DecidableEq, Repr

def FORD_TX_MSGS : List CanMsg := [
  ⟨MSG_Steering_Data_FD1, 0, 8⟩,
  ⟨MSG_Steering_Data_FD1, 2, 8⟩,
  ⟨MSG_ACCDATA_3, 0, 8⟩,
  ⟨MSG_Lane_Assist_Data1, 0, 8⟩,
  ⟨MSG_LateralMotionControl, 0, 8⟩,
  ⟨MSG_IPMA_Data, 0, 8⟩
]

/-- Modelled from the spec: `msg_allowed` is defined outside `safety_ford.h`.
Section 4.3 (1): the frame's (address, bus, length) must exactly match an entry
of the transmit Message Descriptor table. -/
def msg_allowed (to_send : CANPacket_t) (msg_list : List CanMsg) : Bool :=
  msg_list.any fun m =>
    GET_ADDR to_send == m.addr && GET_BUS to_send == m.bus && GET_LEN to_send == m.len

/-- Modelled from the spec: one bus/length variant of an Address Check Entry,
{address, bus, length, checksum-enabled flag, max counter value, expected
inter-frame interval}; the type is declared outside `safety_ford.h`.  Fields
that an initializer leaves out are zero, as in C. -/
structure CanMsgCheck where
  addr : Nat := 0
  bus : Nat := 0
  len : Nat := 0
  check_checksum : Bool := false
  max_counter : Nat := 0
  expected_timestep : Nat := 0
deriving DecidableEq, Repr

/-- Modelled from the spec: `AddrCheckStruct`, an Address Check Entry with its
bus/length variants (`msg`); the type is declared outside `safety_ford.h`. -/
structure AddrCheckStruct where
  msg : List CanMsgCheck
deriving DecidableEq, Repr

def ford_addr_checks : List AddrCheckStruct := [
  ⟨[{ addr := MSG_BrakeSysFeatures, bus := 0, len := 8, check_checksum := false,
      max_counter := 15, expected_timestep := 20000 }, {}, {}]⟩,
  ⟨[{ addr := MSG_Yaw_Data_FD1, bus := 0, len := 8, check_checksum := false,
      max_counter := 255, expected_timestep := 10000 }, {}, {}]⟩,
  -- These messages have no counter or checksum
  ⟨[{ addr := MSG_EngBrakeData, bus := 0, len := 8, expected_timestep := 100000 }, {}, {}]⟩,
  ⟨[{ addr := MSG_EngVehicleSpThrottle, bus := 0, len := 8, expected_timestep := 10000 },
    {}, {}]⟩,
  ⟨[{ addr := MSG_DesiredTorqBrk, bus := 0, len := 8, expected_timestep := 20000 }, {}, {}]⟩,
  ⟨[{ addr := MSG_BrakeSysFeatures, bus := 0, len := 8, expected_timestep := 20000 }, {}, {}]⟩,
  ⟨[{ addr := MSG_Yaw_Data_FD1, bus := 0, len := 8, expected_timestep := 10000 }, {}, {}]⟩
]

def FORD_ADDR_CHECK_LEN : Nat := ford_addr_checks.length

/-- Modelled from the spec: `addr_checks`, a check table with its length; the
type is declared outside `safety_ford.h`. -/
structure addr_checks where
  check : List AddrCheckStruct
  len : Nat
deriving DecidableEq, Repr

def ford_rx_checks : addr_checks := ⟨ford_addr_checks, FORD_ADDR_CHECK_LEN⟩

/-- The function `ford_get_counter`; the result is a `uint8_t`. -/
def ford_get_counter (to_push : CANPacket_t) : Nat :=
  let addr := GET_ADDR to_push
  if addr == MSG_BrakeSysFeatures then
    ((GET_BYTE to_push 2 >>> 2) &&& 0xF) % 256
  else if addr == MSG_Yaw_Data_FD1 then
    GET_BYTE to_push 5
  else
    0

def INACTIVE_CURVATURE : Nat := 1000
def INACTIVE_CURVATURE_RATE : Nat := 4096
def INACTIVE_PATH_OFFSET : Nat := 512
def INACTIVE_PATH_ANGLE : Nat := 1000

def ford_lkas_msg_check (addr : Nat) : Bool :=
  addr == MSG_ACCDATA_3
    || addr == MSG_Lane_Assist_Data1
    || addr == MSG_LateralMotionControl
    || addr == MSG_IPMA_Data

/-! ## Steering limits -/

/-- Modelled from the spec: `struct lookup_t` is declared outside
`safety_ford.h`; section 3 describes a Steering Limit Table as an ordered
sequence of (speed, max-curvature-rate) control points. -/
structure lookup_t where
  x : List ℚ
  y : List ℚ

/-- The two fields of `SteeringLimits` that `FORD_STEERING_LIMITS` sets. -/
structure SteeringLimits where
  angle_rate_up_lookup : lookup_t
  angle_rate_down_lookup : lookup_t

def FORD_STEERING_LIMITS : SteeringLimits where
  angle_rate_up_lookup := ⟨[7, 17, 27], [5 / 1000, 56 / 100000, 2 / 10000]⟩
  angle_rate_down_lookup := ⟨[7, 17, 27], [8 / 1000, 89 / 100000, 32 / 100000]⟩

/-- Linear pieces of `interpolate` to the right of the control point
`(x0, y0)`. -/
def interpolate_from (x0 y0 : ℚ) : List (ℚ × ℚ) → ℚ → ℚ
  | [], _ => y0
  | (x1, y1) :: rest, x =>
    if x < x1 then y0 + (y1 - y0) * (x - x0) / (x1 - x0)
    else interpolate_from x1 y1 rest x

/-- Modelled from the spec: `interpolate` is defined outside `safety_ford.h`.
Section 4.4: a piecewise-linear lookup over an ordered sequence of (x, y)
control points; for x below the first or above the last point, clamp to the
corresponding boundary y. -/
def interpolate (xy : lookup_t) (x : ℚ) : ℚ :=
  match xy.x.zip xy.y with
  | [] => 0
  | (x0, y0) :: rest => if x ≤ x0 then y0 else interpolate_from x0 y0 rest x

/-- C conversion of a `float` to `int`: the fractional part is discarded
(truncation toward zero). -/
def float_to_int (q : ℚ) : Int := if 0 ≤ q then ⌊q⌋ else ⌈q⌉

/-! ## Floating-point values -/

/-- Rounding of a rational to the nearest integer, ties to the even one. -/
def round_half_even (x : ℚ) : Int :=
  if x - ⌊x⌋ < 1 / 2 then ⌊x⌋
  else if 1 / 2 < x - ⌊x⌋ then ⌊x⌋ + 1
  else if ⌊x⌋ % 2 = 0 then ⌊x⌋ else ⌊x⌋ + 1

/-- Rounding of a rational to the binary floating-point format with `prec`
significant bits: the nearest value of the format, ties to the even
significand.  The exponent range (overflow, subnormal values) is not
modelled. -/
def round_to_format (prec : Nat) (q : ℚ) : ℚ :=
  if q = 0 then 0
  else
    (round_half_even (q / 2 ^ (Int.log 2 |q| - ((prec : Int) - 1))) : ℚ) *
      2 ^ (Int.log 2 |q| - ((prec : Int) - 1))

/-- The C `double` (53 significant bits) nearest to `q`. -/
def to_double (q : ℚ) : ℚ := round_to_format 53 q

/-- The C `float` (24 significant bits) nearest to `q`. -/
def to_float (q : ℚ) : ℚ := round_to_format 24 q

/-! ## Vehicle state -/

/-- Modelled from the spec: `struct sample_t` is declared outside
`safety_ford.h`; section 4.2 calls it a smoothed sample buffer.  It is carried
as the samples (C `int`) it holds; the C initial value holds none. -/
structure sample_t where
  values : List Int := []

/-- The globals read by the Ford hooks.  `ford_yaw_rate_meas`, `ford_yaw_rate`
and `ford_yaw_rate_valid` are defined in `safety_ford.h`; the others are
declared by the safety framework.  Default values are the C initial values. -/
structure SafetyState where
  controls_allowed : Bool := false
  cruise_engaged_prev : Bool := false
  vehicle_moving : Bool := false
  gas_pressed : Bool := false
  brake_pressed : Bool := false
  vehicle_speed : ℚ := 0
  desired_angle_last : Int := 0
  ford_yaw_rate_meas : sample_t := {}
  ford_yaw_rate : ℚ := 0
  ford_yaw_rate_valid : Bool := false

/-! ## ford_tx_hook -/

/-- The local `delta_curvature_up` of `ford_tx_hook`. -/
def delta_curvature_up (s : SafetyState) : ℚ :=
  interpolate FORD_STEERING_LIMITS.angle_rate_up_lookup s.vehicle_speed

/-- The local `delta_curvature_down` of `ford_tx_hook`. -/
def delta_curvature_down (s : SafetyState) : ℚ :=
  interpolate FORD_STEERING_LIMITS.angle_rate_down_lookup s.vehicle_speed

/-- The local `highest_desired_curvature` of `ford_tx_hook`. -/
def highest_desired_curvature (s : SafetyState) : Int :=
  float_to_int ((s.desired_angle_last : ℚ) +
    (if s.desired_angle_last > 0 then delta_curvature_up s else delta_curvature_down s))

/-- The local `lowest_desired_curvature` of `ford_tx_hook`. -/
def lowest_desired_curvature (s : SafetyState) : Int :=
  float_to_int ((s.desired_angle_last : ℚ) -
    (if s.desired_angle_last ≥ 0 then delta_curvature_down s else delta_curvature_up s))

/-- The local `steer_control_type` (signal LatCtl_D_Rq) of `ford_tx_hook`. -/
def steer_control_type (to_send : CANPacket_t) : Nat :=
  (GET_BYTE to_send 4 >>> 2) &&& 0x7

/-- The local `curvature` of `ford_tx_hook`. -/
def curvature (to_send : CANPacket_t) : Nat :=
  (GET_BYTE to_send 0 <<< 3) ||| (GET_BYTE to_send 1 >>> 5)

/-- The local `curvature_rate` of `ford_tx_hook`. -/
def curvature_rate (to_send : CANPacket_t) : Nat :=
  ((GET_BYTE to_send 1 &&& 0x1F) <<< 8) ||| GET_BYTE to_send 2

/-- The local `path_angle` of `ford_tx_hook`. -/
def path_angle (to_send : CANPacket_t) : Nat :=
  (GET_BYTE to_send 3 <<< 3) ||| (GET_BYTE to_send 4 >>> 5)

/-- The local `path_offset` of `ford_tx_hook`. -/
def path_offset (to_send : CANPacket_t) : Nat :=
  (GET_BYTE to_send 5 <<< 2) ||| (GET_BYTE to_send 6 >>> 6)

/-- The function `ford_tx_hook`.  The result is the returned `tx` together with
the globals and the frame after the call; the C body assigns to neither, so
both are handed back as received.  The statements after the curvature band
(an `if` on the curvature whose body is an `if` that only declares two floats)
assign nothing and have no counterpart here. -/
def ford_tx_hook (s : SafetyState) (to_send : CANPacket_t) : Int × SafetyState × CANPacket_t :=
  let tx : Int := 1
  let addr := GET_ADDR to_send
  let tx : Int := if !msg_allowed to_send FORD_TX_MSGS then 0 else tx
  -- Safety check for Steering_Data_FD1 button signals
  let tx : Int :=
    if addr == MSG_Steering_Data_FD1 then
      let violation := false
      let violation := violation || (GET_BIT to_send 8 == 1 && !s.cruise_engaged_prev)
      let violation := violation || (GET_BIT to_send 25 == 1 && !s.controls_allowed)
      if violation then 0 else tx
    else tx
  -- Safety check for Lane_Assist_Data1 action
  let tx : Int :=
    if addr == MSG_Lane_Assist_Data1 then
      let action := GET_BYTE to_send 0 >>> 5
      if action != 0 then 0 else tx
    else tx
  -- Safety check for LateralMotionControl action
  let tx : Int :=
    if addr == MSG_LateralMotionControl then
      let steer_control_type := steer_control_type to_send
      let curvature := curvature to_send
      let curvature_rate := curvature_rate to_send
      let path_angle := path_angle to_send
      let path_offset := path_offset to_send
      let tx : Int :=
        if curvature_rate != INACTIVE_CURVATURE_RATE || path_angle != INACTIVE_PATH_ANGLE
            || path_offset != INACTIVE_PATH_OFFSET then 0 else tx
      let current_controls_allowed := s.controls_allowed && s.ford_yaw_rate_valid
      let steer_control_enabled := steer_control_type != 0 || curvature != INACTIVE_CURVATURE
      let tx : Int := if !current_controls_allowed && steer_control_enabled then 0 else tx
      -- Curvature rate limits
      let delta_curvature_up := delta_curvature_up s
      let delta_curvature_down := delta_curvature_down s
      let highest_desired_curvature := highest_desired_curvature s
      let lowest_desired_curvature := lowest_desired_curvature s
      tx
    else tx
  (tx, s, to_send)

/-! ## ford_fwd_hook -/

/-- The function `ford_fwd_hook`; `bus_num` is a C `int`. -/
def ford_fwd_hook (bus_num : Int) (to_fwd : CANPacket_t) : Int :=
  let addr := GET_ADDR to_fwd
  let bus_fwd : Int := -1
  if bus_num = (FORD_MAIN_BUS : Int) then
    (FORD_CAM_BUS : Int)
  else if bus_num = (FORD_CAM_BUS : Int) then
    if !ford_lkas_msg_check addr then (FORD_MAIN_BUS : Int) else bus_fwd
  else
    -1

/-! ## ford_rx_hook -/

/-- The functions of the safety framework called by `ford_rx_hook`.  They are
defined outside `safety_ford.h` and are taken as given: each maps the globals
before the call (and its C arguments) to the globals after it.
`addr_safety_check` also yields its `bool` result; `update_sample` writes only
through its `sample_t` pointer and takes the new sample as a C `int`. -/
structure Framework where
  addr_safety_check : SafetyState → CANPacket_t → addr_checks →
    Option (CANPacket_t → Nat) → Option (CANPacket_t → Nat) → (CANPacket_t → Nat) →
    Bool × SafetyState
  update_sample : sample_t → Int → sample_t
  pcm_cruise_check : Bool → SafetyState → SafetyState
  generic_rx_checks : Bool → SafetyState → SafetyState

/-- The call `addr_safety_check(to_push, &ford_rx_checks, NULL, NULL,
ford_get_counter)` that opens `ford_rx_hook`. -/
def ford_rx_valid (fw : Framework) (s : SafetyState) (to_push : CANPacket_t) :
    Bool × SafetyState :=
  fw.addr_safety_check s to_push ford_rx_checks none none ford_get_counter

/-- The C expression `raw * 0.01 / 3.6` stored in the `float` `vehicle_speed`:
`raw` is an `int` (exact as a `double`), `0.01` and `3.6` are `double`
constants, the product and the quotient are `double` operations, and the store
converts to `float`. -/
def vehicle_speed_of_raw (raw : Nat) : ℚ :=
  to_float (to_double (to_double ((raw : ℚ) * to_double (1 / 100)) / to_double (36 / 10)))

/-- The C expression `(raw * 0.0002) - 6.5` stored in the `float`
`ford_yaw_rate`: `0.0002` is a `double` constant, `6.5` is exact, the product
and the difference are `double` operations, and the store converts to
`float`. -/
def yaw_rate_of_raw (raw : Nat) : ℚ :=
  to_float (to_double (to_double ((raw : ℚ) * to_double (2 / 10000)) - 65 / 10))

/-- The value assigned to `vehicle_speed` (signal Veh_V_ActlBrk). -/
def decoded_vehicle_speed (to_push : CANPacket_t) : ℚ :=
  vehicle_speed_of_raw ((GET_BYTE to_push 0 <<< 8) ||| GET_BYTE to_push 1)

/-- The value assigned to `ford_yaw_rate` (signal VehYaw_W_Actl). -/
def decoded_yaw_rate (to_push : CANPacket_t) : ℚ :=
  yaw_rate_of_raw ((GET_BYTE to_push 2 <<< 8) ||| GET_BYTE to_push 3)

/-- The function `ford_rx_hook`.  The result is the returned `valid` (as a C
`int`) together with the globals and the frame after the call.  The `float`
`ford_yaw_rate` is converted to `int` where it is passed to `update_sample`. -/
def ford_rx_hook (fw : Framework) (s : SafetyState) (to_push : CANPacket_t) :
    Int × SafetyState × CANPacket_t :=
  let checked := ford_rx_valid fw s to_push
  let valid := checked.1
  let s := checked.2
  let s :=
    if valid && GET_BUS to_push == FORD_MAIN_BUS then
      let addr := GET_ADDR to_push
      -- Update in motion state from standstill signal
      let s :=
        if addr == MSG_DesiredTorqBrk then
          { s with vehicle_moving := ((GET_BYTE to_push 3 >>> 3) &&& 0x3) == 0 }
        else s
      -- Update vehicle speed
      let s :=
        if addr == MSG_BrakeSysFeatures then
          { s with vehicle_speed := decoded_vehicle_speed to_push }
        else s
      -- Update vehicle yaw rate
      let s :=
        if addr == MSG_Yaw_Data_FD1 then
          let s := { s with ford_yaw_rate := decoded_yaw_rate to_push }
          let s := { s with
            ford_yaw_rate_meas :=
              fw.update_sample s.ford_yaw_rate_meas (float_to_int s.ford_yaw_rate) }
          { s with ford_yaw_rate_valid := ((GET_BYTE to_push 6 >>> 4) &&& 0x3) == 3 }
        else s
      -- Update gas pedal
      let s :=
        if addr == MSG_EngVehicleSpThrottle then
          { s with gas_pressed :=
              decide ((((GET_BYTE to_push 0 &&& 0x03) <<< 8) ||| GET_BYTE to_push 1) > 0) }
        else s
      -- Update brake pedal and cruise state
      let s :=
        if addr == MSG_EngBrakeData then
          let s := { s with brake_pressed := ((GET_BYTE to_push 0 >>> 4) &&& 0x3) == 2 }
          let cruise_state := GET_BYTE to_push 1 &&& 0x07
          let cruise_engaged := cruise_state == 4 || cruise_state == 5
          fw.pcm_cruise_check cruise_engaged s
        else s
      fw.generic_rx_checks (ford_lkas_msg_check addr) s
    else s
  ((if valid then 1 else 0), s, to_push)

/-- The two states agree on the fields that `ford_rx_hook` decodes from
frames. -/
def same_decoded (t s : SafetyState) : Prop :=
  t.vehicle_moving = s.vehicle_moving ∧ t.vehicle_speed = s.vehicle_speed ∧
    t.ford_yaw_rate = s.ford_yaw_rate ∧ t.ford_yaw_rate_valid = s.ford_yaw_rate_valid ∧
    t.gas_pressed = s.gas_pressed ∧ t.brake_pressed = s.brake_pressed

/-- The framework never writes the fields that `ford_rx_hook` decodes. -/
def Framework.keeps_decoded_fields (fw : Framework) : Prop :=
  (∀ s to_push, same_decoded (ford_rx_valid fw s to_push).2 s) ∧
    (∀ b s, same_decoded (fw.pcm_cruise_check b s) s) ∧
    (∀ b s, same_decoded (fw.generic_rx_checks b s) s)

/-! ## ford_init -/

/-- The function `ford_init`; `param` is unused.  The result is the table the
returned pointer refers to, together with the globals after the call. -/
def ford_init (s : SafetyState) (param : Nat) : addr_checks × SafetyState :=
  let s := { s with ford_yaw_rate := 0 }
  let s := { s with ford_yaw_rate_valid := false }
  (ford_rx_checks, s)

/-! ## Concrete frames and states used as examples -/

/-- Builds a frame from its address, bus, length and payload bytes. -/
def mkPacket (addr bus len : Nat) (bytes : List Nat) : CANPacket_t :=
  ⟨addr, bus, len, fun i => bytes.getD i 0⟩

/-- A LateralMotionControl frame on the main bus asking for control mode 1 and
the largest curvature (2047), with curvature-rate 4096, path-angle 1000 and
path-offset 512. -/
def lmc_full_lock : CANPacket_t :=
  mkPacket 0x3D3 0 8 [0xFF, 0xF0, 0x00, 0x7D, 0x04, 0x80, 0x00, 0x00]

/-- A LateralMotionControl frame on the main bus with control mode 0,
curvature 1000, curvature-rate 4096, path-angle 1000 and path-offset 512. -/
def lmc_inactive : CANPacket_t :=
  mkPacket 0x3D3 0 8 [0x7D, 0x10, 0x00, 0x7D, 0x00, 0x80, 0x00, 0x00]

/-- Controls allowed, yaw rate valid, 20 m/s, no curvature accepted before. -/
def engaged_at_speed : SafetyState :=
  { controls_allowed := true, ford_yaw_rate_valid := true, vehicle_speed := 20 }

/-- An instance of the framework for the examples: the address check rejects
the frames whose address is in `degraded` and accepts the others,
`update_sample` puts the new sample in front, `pcm_cruise_check` enters controls
on a rising edge of cruise and leaves them when cruise is off, and
`generic_rx_checks` leaves controls when the brake is pressed. -/
def example_framework (degraded : List Nat) : Framework where
  addr_safety_check := fun s to_push _ _ _ _ =>
    if degraded.contains (GET_ADDR to_push) then (false, { s with controls_allowed := false })
    else (true, s)
  update_sample := fun sample sample_new => { values := sample_new :: sample.values }
  pcm_cruise_check := fun cruise_engaged s =>
    { s with
      controls_allowed :=
        if !cruise_engaged then false
        else if !s.cruise_engaged_prev then true else s.controls_allowed
      cruise_engaged_prev := cruise_engaged }
  generic_rx_checks := fun _ s =>
    { s with controls_allowed := s.controls_allowed && !s.brake_pressed }

/-- A BrakeSysFeatures frame on the main bus with raw speed 0x1234. -/
def speed_frame : CANPacket_t :=
  mkPacket 0x415 0 8 [0x12, 0x34, 0x00, 0x00, 0x00, 0x00, 0x00, 0x00]

/-- A Yaw_Data_FD1 frame on the main bus with raw yaw rate 0xFFFF (6.607 rad/s)
and quality 3. -/
def yaw_frame : CANPacket_t :=
  mkPacket 0x91 0 8 [0x00, 0x00, 0xFF, 0xFF, 0x00, 0x00, 0x30, 0x00]

/-- An EngBrakeData frame on the main bus with the brake sub-field 2 and cruise
state 4. -/
def brake_frame : CANPacket_t :=
  mkPacket 0x165 0 8 [0x20, 0x04, 0x00, 0x00, 0x00, 0x00, 0x00, 0x00]

/-- The first bus/length variant of an Address Check Entry, as (address, bus). -/
def first_variant (e : AddrCheckStruct) : Nat × Nat :=
  ((e.msg.headD {}).addr, (e.msg.headD {}).bus)

/-! ## Transmit gatekeeper: supporting lemmas -/

/-- The verdict of `ford_tx_hook` in closed form: 0 exactly when the allow-list
check or one of the per-message checks assigns 0 to `tx`. -/
theorem ford_tx_hook_verdict (s : SafetyState) (to_send : CANPacket_t) :
    (ford_tx_hook s to_send).1 =
      if (!msg_allowed to_send FORD_TX_MSGS
          || (GET_ADDR to_send == MSG_Steering_Data_FD1 &&
              ((GET_BIT to_send 8 == 1 && !s.cruise_engaged_prev) ||
               (GET_BIT to_send 25 == 1 && !s.controls_allowed)))
          || (GET_ADDR to_send == MSG_Lane_Assist_Data1 && GET_BYTE to_send 0 >>> 5 != 0)
          || (GET_ADDR to_send == MSG_LateralMotionControl &&
              ((curvature_rate to_send != INACTIVE_CURVATURE_RATE ||
                path_angle to_send != INACTIVE_PATH_ANGLE ||
                path_offset to_send != INACTIVE_PATH_OFFSET) ||
               (!(s.controls_allowed && s.ford_yaw_rate_valid) &&
                (steer_control_type to_send != 0 ||
                 curvature to_send != INACTIVE_CURVATURE))))) = true
      then 0 else 1 := by
  unfold ford_tx_hook
  dsimp only
  generalize msg_allowed to_send FORD_TX_MSGS = a
  generalize (GET_ADDR to_send == MSG_Steering_Data_FD1) = b1
  generalize (GET_ADDR to_send == MSG_Lane_Assist_Data1) = b2
  generalize (GET_ADDR to_send == MSG_LateralMotionControl) = b3
  generalize (GET_BIT to_send 8 == 1 && !s.cruise_engaged_prev) = c1
  generalize (GET_BIT to_send 25 == 1 && !s.controls_allowed) = c2
  generalize (GET_BYTE to_send 0 >>> 5 != 0) = c3
  generalize (curvature_rate to_send != INACTIVE_CURVATURE_RATE ||
                path_angle to_send != INACTIVE_PATH_ANGLE ||
                path_offset to_send != INACTIVE_PATH_OFFSET) = c4
  generalize (!(s.controls_allowed && s.ford_yaw_rate_valid) &&
                (steer_control_type to_send != 0 ||
                 curvature to_send != INACTIVE_CURVATURE)) = c5
  cases a <;> cases b1 <;> cases b2 <;> cases b3 <;> cases c1 <;> cases c2 <;> cases c3 <;>
    cases c4 <;> cases c5 <;> rfl

/-- The verdict of `ford_tx_hook` reads only `controls_allowed`,
`cruise_engaged_prev` and `ford_yaw_rate_valid` from the state: the speed, the
last accepted curvature and the band computed from them play no part. -/
theorem ford_tx_hook_verdict_congr (s t : SafetyState) (to_send : CANPacket_t)
    (h1 : s.controls_allowed = t.controls_allowed)
    (h2 : s.cruise_engaged_prev = t.cruise_engaged_prev)
    (h3 : s.ford_yaw_rate_valid = t.ford_yaw_rate_valid) :
    (ford_tx_hook s to_send).1 = (ford_tx_hook t to_send).1 := by
  rw [ford_tx_hook_verdict, ford_tx_hook_verdict, h1, h2, h3]

theorem msg_allowed_iff (to_send : CANPacket_t) (msg_list : List CanMsg) :
    msg_allowed to_send msg_list = true ↔
      (⟨GET_ADDR to_send, GET_BUS to_send, GET_LEN to_send⟩ : CanMsg) ∈ msg_list := by
  unfold msg_allowed
  rw [List.any_eq_true]
  constructor
  · rintro ⟨m, hm, hx⟩
    simp only [Bool.and_eq_true, beq_iff_eq] at hx
    obtain ⟨⟨h1, h2⟩, h3⟩ := hx
    cases m
    simp only at h1 h2 h3
    rw [h1, h2, h3]
    exact hm
  · intro hm
    exact ⟨_, hm, by simp⟩

theorem curvature_lt (to_send : CANPacket_t) : curvature to_send < 2 ^ 11 := by
  unfold curvature GET_BYTE
  apply Nat.or_lt_two_pow
  · rw [Nat.shiftLeft_eq]; omega
  · rw [Nat.shiftRight_eq_div_pow]; omega

theorem curvature_rate_lt (to_send : CANPacket_t) : curvature_rate to_send < 2 ^ 13 := by
  unfold curvature_rate GET_BYTE
  have h : to_send.data 1 % 256 &&& 0x1F ≤ 0x1F := Nat.and_le_right
  apply Nat.or_lt_two_pow
  · rw [Nat.shiftLeft_eq]; omega
  · omega

theorem path_angle_lt (to_send : CANPacket_t) : path_angle to_send < 2 ^ 11 := by
  unfold path_angle GET_BYTE
  apply Nat.or_lt_two_pow
  · rw [Nat.shiftLeft_eq]; omega
  · rw [Nat.shiftRight_eq_div_pow]; omega

theorem path_offset_lt (to_send : CANPacket_t) : path_offset to_send < 2 ^ 10 := by
  unfold path_offset GET_BYTE
  apply Nat.or_lt_two_pow
  · rw [Nat.shiftLeft_eq]; omega
  · rw [Nat.shiftRight_eq_div_pow]; omega

/-- At 20 m/s the interpolated limits lie between the table values for 17 and
27 m/s. -/
theorem delta_curvature_at_20 :
    delta_curvature_up engaged_at_speed = 452 / 1000000 ∧
      delta_curvature_down engaged_at_speed = 719 / 1000000 := by
  constructor <;>
    norm_num [delta_curvature_up, delta_curvature_down, interpolate, interpolate_from,
      FORD_STEERING_LIMITS, engaged_at_speed]

/-! ## Theorems -/

/-- C1: for every frame and state, `ford_tx_hook` returns 0 whenever the
frame's (address, bus, length) is not one of the six entries of
`FORD_TX_MSGS`, whatever the payload. -/
theorem ford_tx_hook_denies_unlisted (s : SafetyState) (to_send : CANPacket_t)
    (h : (⟨GET_ADDR to_send, GET_BUS to_send, GET_LEN to_send⟩ : CanMsg) ∉ FORD_TX_MSGS) :
    FORD_TX_MSGS.length = 6 ∧ (ford_tx_hook s to_send).1 = 0 := by
  have hm : msg_allowed to_send FORD_TX_MSGS = false := by
    rw [← Bool.not_eq_true, msg_allowed_iff]; exact h
  refine ⟨rfl, ?_⟩
  rw [ford_tx_hook_verdict, hm]
  rfl

theorem ford_tx_hook_denies_unlisted_witness :
    (⟨GET_ADDR (mkPacket 0x3D3 1 8 []), GET_BUS (mkPacket 0x3D3 1 8 []),
        GET_LEN (mkPacket 0x3D3 1 8 [])⟩ : CanMsg) ∉ FORD_TX_MSGS ∧
      FORD_TX_MSGS.length = 6 ∧
      (ford_tx_hook engaged_at_speed (mkPacket 0x3D3 1 8 [])).1 = 0 :=
  ⟨by decide, ford_tx_hook_denies_unlisted engaged_at_speed (mkPacket 0x3D3 1 8 []) (by decide)⟩

/-- C2: for every LateralMotionControl frame, `ford_tx_hook` returns 0 whenever
the control mode (bits 2-4 of byte 4) is non-zero or the 11-bit curvature is
not the inactive value 1000, while `controls_allowed` is false or
`ford_yaw_rate_valid` is false. -/
theorem ford_tx_hook_denies_unauthorized_steer (s : SafetyState) (to_send : CANPacket_t)
    (haddr : GET_ADDR to_send = MSG_LateralMotionControl)
    (hreq : steer_control_type to_send ≠ 0 ∨ curvature to_send ≠ INACTIVE_CURVATURE)
    (hauth : s.controls_allowed = false ∨ s.ford_yaw_rate_valid = false) :
    steer_control_type to_send = GET_BYTE to_send 4 / 2 ^ 2 % 2 ^ 3 ∧
      curvature to_send < 2 ^ 11 ∧ INACTIVE_CURVATURE = 1000 ∧
      (ford_tx_hook s to_send).1 = 0 := by
  refine ⟨?_, curvature_lt to_send, rfl, ?_⟩
  · unfold steer_control_type
    rw [Nat.shiftRight_eq_div_pow]
    exact Nat.and_pow_two_sub_one_eq_mod _ 3
  · have hen : (steer_control_type to_send != 0 || curvature to_send != INACTIVE_CURVATURE) = true := by
      rcases hreq with h | h <;> simp [h]
    have hca : (s.controls_allowed && s.ford_yaw_rate_valid) = false := by
      rcases hauth with h | h <;> simp [h]
    rw [ford_tx_hook_verdict, haddr, hen, hca]
    simp

theorem ford_tx_hook_denies_unauthorized_steer_witness :
    GET_ADDR lmc_full_lock = MSG_LateralMotionControl ∧
      (steer_control_type lmc_full_lock ≠ 0 ∨ curvature lmc_full_lock ≠ INACTIVE_CURVATURE) ∧
      (ford_tx_hook { controls_allowed := true } lmc_full_lock).1 = 0 :=
  ⟨by decide, Or.inl (by decide),
    (ford_tx_hook_denies_unauthorized_steer { controls_allowed := true } lmc_full_lock
      (by decide) (Or.inl (by decide)) (Or.inr rfl)).2.2.2⟩

/-- C3: the code does not enforce the curvature band.  With controls allowed,
yaw rate valid, 20 m/s and previous curvature 0, the band computed by
`ford_tx_hook` is [0, 0]; the frame `lmc_full_lock` requests raw curvature 2047
(0.02094 1/m, above previous + limit for either limit), and the hook returns
1. -/
theorem ford_tx_hook_ignores_curvature_band :
    GET_ADDR lmc_full_lock = MSG_LateralMotionControl ∧
      curvature lmc_full_lock = 2047 ∧
      lowest_desired_curvature engaged_at_speed = 0 ∧
      highest_desired_curvature engaged_at_speed = 0 ∧
      (engaged_at_speed.desired_angle_last : ℚ) + delta_curvature_up engaged_at_speed <
        (curvature lmc_full_lock : ℚ) * (2 / 100000) - 2 / 100 ∧
      (engaged_at_speed.desired_angle_last : ℚ) + delta_curvature_down engaged_at_speed <
        (curvature lmc_full_lock : ℚ) * (2 / 100000) - 2 / 100 ∧
      (ford_tx_hook engaged_at_speed lmc_full_lock).1 = 1 := by
  have hc : curvature lmc_full_lock = 2047 := by decide
  have hd : engaged_at_speed.desired_angle_last = 0 := rfl
  obtain ⟨hup, hdown⟩ := delta_curvature_at_20
  refine ⟨by decide, hc, ?_, ?_, ?_, ?_, by decide⟩
  · rw [lowest_desired_curvature, hd, hdown]
    norm_num [float_to_int]
  · rw [highest_desired_curvature, hd, hdown]
    norm_num [float_to_int]
  · rw [hc, hd, hup]; norm_num
  · rw [hc, hd, hdown]; norm_num

/-- C4: for every LateralMotionControl frame and every state, `ford_tx_hook`
returns 0 whenever the 13-bit curvature-rate is not 4096, or the 11-bit
path-angle is not 1000, or the 10-bit path-offset is not 512. -/
theorem ford_tx_hook_denies_active_aux_signal (s : SafetyState) (to_send : CANPacket_t)
    (haddr : GET_ADDR to_send = MSG_LateralMotionControl)
    (hsig : curvature_rate to_send ≠ 4096 ∨ path_angle to_send ≠ 1000 ∨
      path_offset to_send ≠ 512) :
    curvature_rate to_send < 2 ^ 13 ∧ path_angle to_send < 2 ^ 11 ∧
      path_offset to_send < 2 ^ 10 ∧ (ford_tx_hook s to_send).1 = 0 := by
  refine ⟨curvature_rate_lt to_send, path_angle_lt to_send, path_offset_lt to_send, ?_⟩
  have hs : (curvature_rate to_send != INACTIVE_CURVATURE_RATE ||
      path_angle to_send != INACTIVE_PATH_ANGLE ||
      path_offset to_send != INACTIVE_PATH_OFFSET) = true := by
    simp only [INACTIVE_CURVATURE_RATE, INACTIVE_PATH_ANGLE, INACTIVE_PATH_OFFSET]
    rcases hsig with h | h | h <;> simp [h]
  rw [ford_tx_hook_verdict, haddr, hs]
  simp

theorem ford_tx_hook_denies_active_aux_signal_witness :
    GET_ADDR (mkPacket 0x3D3 0 8 [0x7D, 0x10, 0x00, 0x7D, 0x00, 0x80, 0x40, 0x00]) =
        MSG_LateralMotionControl ∧
      path_offset (mkPacket 0x3D3 0 8 [0x7D, 0x10, 0x00, 0x7D, 0x00, 0x80, 0x40, 0x00]) = 513 ∧
      (ford_tx_hook engaged_at_speed
        (mkPacket 0x3D3 0 8 [0x7D, 0x10, 0x00, 0x7D, 0x00, 0x80, 0x40, 0x00])).1 = 0 :=
  ⟨by decide, by decide,
    (ford_tx_hook_denies_active_aux_signal engaged_at_speed
      (mkPacket 0x3D3 0 8 [0x7D, 0x10, 0x00, 0x7D, 0x00, 0x80, 0x40, 0x00])
      (by decide) (Or.inr (Or.inr (by decide)))).2.2.2⟩

/-- C5: for every Lane_Assist_Data1 frame whose action sub-field (top three bits
of byte 0) is non-zero, `ford_tx_hook` returns 0, whatever the other bytes, the
bus, the length and the state. -/
theorem ford_tx_hook_denies_lane_assist_action (s : SafetyState) (to_send : CANPacket_t)
    (haddr : GET_ADDR to_send = MSG_Lane_Assist_Data1)
    (hact : GET_BYTE to_send 0 >>> 5 ≠ 0) :
    (ford_tx_hook s to_send).1 = 0 := by
  have ha : (GET_BYTE to_send 0 >>> 5 != 0) = true := by simp [hact]
  rw [ford_tx_hook_verdict, haddr, ha]
  simp

theorem ford_tx_hook_denies_lane_assist_action_witness :
    GET_ADDR (mkPacket 0x3CA 0 8 [0x20]) = MSG_Lane_Assist_Data1 ∧
      GET_BYTE (mkPacket 0x3CA 0 8 [0x20]) 0 >>> 5 = 1 ∧
      (ford_tx_hook engaged_at_speed (mkPacket 0x3CA 0 8 [0x20])).1 = 0 :=
  ⟨by decide, by decide,
    ford_tx_hook_denies_lane_assist_action engaged_at_speed (mkPacket 0x3CA 0 8 [0x20])
      (by decide) (by decide)⟩

/-- C6: for every Steering_Data_FD1 frame, `ford_tx_hook` returns 0 when the
resume bit (bit 25) is set while `controls_allowed` is false, and returns 0 when
the cancel bit (bit 8) is set while `cruise_engaged_prev` is false. -/
theorem ford_tx_hook_denies_button_violation (s : SafetyState) (to_send : CANPacket_t)
    (haddr : GET_ADDR to_send = MSG_Steering_Data_FD1)
    (hbtn : (GET_BIT to_send 25 = 1 ∧ s.controls_allowed = false) ∨
      (GET_BIT to_send 8 = 1 ∧ s.cruise_engaged_prev = false)) :
    (ford_tx_hook s to_send).1 = 0 := by
  have hv : ((GET_BIT to_send 8 == 1 && !s.cruise_engaged_prev) ||
      (GET_BIT to_send 25 == 1 && !s.controls_allowed)) = true := by
    rcases hbtn with ⟨h1, h2⟩ | ⟨h1, h2⟩ <;> simp [h1, h2]
  rw [ford_tx_hook_verdict, haddr, hv]
  simp

theorem ford_tx_hook_denies_button_violation_witness :
    GET_ADDR (mkPacket 0x083 0 8 [0, 0, 0, 0x02]) = MSG_Steering_Data_FD1 ∧
      GET_BIT (mkPacket 0x083 0 8 [0, 0, 0, 0x02]) 25 = 1 ∧
      (ford_tx_hook { cruise_engaged_prev := true } (mkPacket 0x083 0 8 [0, 0, 0, 0x02])).1 = 0 :=
  ⟨by decide, by decide,
    ford_tx_hook_denies_button_violation { cruise_engaged_prev := true }
      (mkPacket 0x083 0 8 [0, 0, 0, 0x02]) (by decide) (Or.inl ⟨by decide, rfl⟩)⟩

/-- C7: every frame that matches the transmit allow-list and triggers none of
the deny rules (button rule on 0x083, action rule on 0x3CA, sentinel and
authorization rules on 0x3D3) gets 1 from `ford_tx_hook`; in particular every
allow-listed ACCDATA_3 and IPMA_Data frame is allowed in every state.  No
hypothesis on the curvature band is needed, so the statement also covers the
frames that stay inside it. -/
theorem ford_tx_hook_allows_by_default :
    (∀ (s : SafetyState) (to_send : CANPacket_t),
      (⟨GET_ADDR to_send, GET_BUS to_send, GET_LEN to_send⟩ : CanMsg) ∈ FORD_TX_MSGS →
      (GET_ADDR to_send = MSG_Steering_Data_FD1 →
        ¬ (GET_BIT to_send 8 = 1 ∧ s.cruise_engaged_prev = false) ∧
        ¬ (GET_BIT to_send 25 = 1 ∧ s.controls_allowed = false)) →
      (GET_ADDR to_send = MSG_Lane_Assist_Data1 → GET_BYTE to_send 0 >>> 5 = 0) →
      (GET_ADDR to_send = MSG_LateralMotionControl →
        curvature_rate to_send = INACTIVE_CURVATURE_RATE ∧
        path_angle to_send = INACTIVE_PATH_ANGLE ∧
        path_offset to_send = INACTIVE_PATH_OFFSET) →
      (GET_ADDR to_send = MSG_LateralMotionControl →
        (s.controls_allowed = true ∧ s.ford_yaw_rate_valid = true) ∨
        (steer_control_type to_send = 0 ∧ curvature to_send = INACTIVE_CURVATURE)) →
      (ford_tx_hook s to_send).1 = 1) ∧
    (∀ (s : SafetyState) (to_send : CANPacket_t),
      (⟨GET_ADDR to_send, GET_BUS to_send, GET_LEN to_send⟩ : CanMsg) ∈ FORD_TX_MSGS →
      GET_ADDR to_send = MSG_ACCDATA_3 ∨ GET_ADDR to_send = MSG_IPMA_Data →
      (ford_tx_hook s to_send).1 = 1) := by
  constructor
  · intro s to_send hal hbtn hact hsen hauth
    have hm : msg_allowed to_send FORD_TX_MSGS = true := (msg_allowed_iff _ _).2 hal
    rw [ford_tx_hook_verdict, hm, if_neg]
    rw [Bool.not_eq_true]
    have e1 : (GET_ADDR to_send == MSG_Steering_Data_FD1 &&
        ((GET_BIT to_send 8 == 1 && !s.cruise_engaged_prev) ||
          (GET_BIT to_send 25 == 1 && !s.controls_allowed))) = false := by
      by_cases h : GET_ADDR to_send = MSG_Steering_Data_FD1
      · obtain ⟨hb1, hb2⟩ := hbtn h
        have a1 : (GET_BIT to_send 8 == 1 && !s.cruise_engaged_prev) = false := by
          rw [← Bool.not_eq_true]; intro hc; apply hb1; simpa using hc
        have a2 : (GET_BIT to_send 25 == 1 && !s.controls_allowed) = false := by
          rw [← Bool.not_eq_true]; intro hc; apply hb2; simpa using hc
        rw [a1, a2]; simp
      · simp [h]
    have e2 : (GET_ADDR to_send == MSG_Lane_Assist_Data1 &&
        GET_BYTE to_send 0 >>> 5 != 0) = false := by
      by_cases h : GET_ADDR to_send = MSG_Lane_Assist_Data1
      · rw [hact h]; simp
      · simp [h]
    have e3 : (GET_ADDR to_send == MSG_LateralMotionControl &&
        ((curvature_rate to_send != INACTIVE_CURVATURE_RATE ||
            path_angle to_send != INACTIVE_PATH_ANGLE ||
            path_offset to_send != INACTIVE_PATH_OFFSET) ||
          (!(s.controls_allowed && s.ford_yaw_rate_valid) &&
            (steer_control_type to_send != 0 ||
              curvature to_send != INACTIVE_CURVATURE)))) = false := by
      by_cases h : GET_ADDR to_send = MSG_LateralMotionControl
      · obtain ⟨hs1, hs2, hs3⟩ := hsen h
        rw [hs1, hs2, hs3]
        rcases hauth h with ⟨ha1, ha2⟩ | ⟨ha1, ha2⟩
        · rw [ha1, ha2]; simp
        · rw [ha1, ha2]; simp
      · simp [h]
    rw [e1, e2, e3]; rfl
  · intro s to_send hal haddr
    have hm : msg_allowed to_send FORD_TX_MSGS = true := (msg_allowed_iff _ _).2 hal
    rw [ford_tx_hook_verdict, hm]
    rcases haddr with h | h <;> rw [h] <;> rfl

theorem ford_tx_hook_allows_by_default_witness :
    (ford_tx_hook {} lmc_inactive).1 = 1 ∧
      (ford_tx_hook {} (mkPacket 0x18A 0 8 [0xFF, 0xFF, 0xFF, 0xFF])).1 = 1 :=
  ⟨ford_tx_hook_allows_by_default.1 {} lmc_inactive (by decide)
      (fun h => absurd h (by decide)) (fun h => absurd h (by decide))
      (fun _ => ⟨by decide, by decide, by decide⟩)
      (fun _ => Or.inr ⟨by decide, by decide⟩),
    ford_tx_hook_allows_by_default.2 {} (mkPacket 0x18A 0 8 [0xFF, 0xFF, 0xFF, 0xFF])
      (by decide) (Or.inl (by decide))⟩

/-- C8: `ford_tx_hook` is a pure verdict: it returns 0 or 1, hands back the
state and the frame exactly as received, and a second call on what the first
call left behind returns the same verdict. -/
theorem ford_tx_hook_pure_verdict (s : SafetyState) (to_send : CANPacket_t) :
    ((ford_tx_hook s to_send).1 = 0 ∨ (ford_tx_hook s to_send).1 = 1) ∧
      (ford_tx_hook s to_send).2.1 = s ∧
      (ford_tx_hook s to_send).2.2 = to_send ∧
      (∀ b, GET_BYTE (ford_tx_hook s to_send).2.2 b = GET_BYTE to_send b) ∧
      (ford_tx_hook (ford_tx_hook s to_send).2.1 (ford_tx_hook s to_send).2.2).1 =
        (ford_tx_hook s to_send).1 := by
  refine ⟨?_, rfl, rfl, fun _ => rfl, rfl⟩
  rw [ford_tx_hook_verdict]
  split_ifs
  · exact Or.inl rfl
  · exact Or.inr rfl

/-- C9: on the camera bus `ford_fwd_hook` returns the main bus exactly for the
addresses outside {0x18A, 0x3CA, 0x3D3, 0x3D8} and returns -1 for those four;
so from no source bus is a frame with one of those addresses forwarded to the
main bus. -/
theorem ford_fwd_hook_blocks_stock_lkas (to_fwd : CANPacket_t) :
    (ford_fwd_hook (FORD_CAM_BUS : Int) to_fwd = (FORD_MAIN_BUS : Int) ↔
        GET_ADDR to_fwd ∉ [0x18A, 0x3CA, 0x3D3, 0x3D8]) ∧
      (GET_ADDR to_fwd ∈ [0x18A, 0x3CA, 0x3D3, 0x3D8] →
        ford_fwd_hook (FORD_CAM_BUS : Int) to_fwd = -1) ∧
      (∀ bus_num : Int, GET_ADDR to_fwd ∈ [0x18A, 0x3CA, 0x3D3, 0x3D8] →
        ford_fwd_hook bus_num to_fwd ≠ (FORD_MAIN_BUS : Int)) := by
  have hchk : ford_lkas_msg_check (GET_ADDR to_fwd) = true ↔
      GET_ADDR to_fwd ∈ [0x18A, 0x3CA, 0x3D3, 0x3D8] := by
    simp [ford_lkas_msg_check, MSG_ACCDATA_3, MSG_Lane_Assist_Data1,
      MSG_LateralMotionControl, MSG_IPMA_Data, or_assoc]
  refine ⟨?_, ?_, ?_⟩
  · rw [← hchk]
    cases h : ford_lkas_msg_check (GET_ADDR to_fwd) <;>
      simp [ford_fwd_hook, h, FORD_CAM_BUS, FORD_MAIN_BUS]
  · intro hin
    have h := hchk.2 hin
    simp [ford_fwd_hook, h, FORD_CAM_BUS, FORD_MAIN_BUS]
  · intro bus_num hin
    have h := hchk.2 hin
    simp only [ford_fwd_hook, h, FORD_CAM_BUS, FORD_MAIN_BUS]
    split_ifs <;> simp_all

theorem ford_fwd_hook_blocks_stock_lkas_witness :
    GET_ADDR lmc_full_lock ∈ [0x18A, 0x3CA, 0x3D3, 0x3D8] ∧
      ford_fwd_hook (FORD_CAM_BUS : Int) lmc_full_lock = -1 ∧
      ford_fwd_hook (FORD_CAM_BUS : Int) (mkPacket 0x415 2 8 []) = (FORD_MAIN_BUS : Int) :=
  ⟨by decide, (ford_fwd_hook_blocks_stock_lkas lmc_full_lock).2.1 (by decide),
    (ford_fwd_hook_blocks_stock_lkas (mkPacket 0x415 2 8 [])).1.2 (by decide)⟩

/-- C10: for every frame received on the main bus, whatever its address,
`ford_fwd_hook` returns the camera bus (2). -/
theorem ford_fwd_hook_main_to_cam (to_fwd : CANPacket_t) :
    ford_fwd_hook (FORD_MAIN_BUS : Int) to_fwd = (FORD_CAM_BUS : Int) ∧
      (FORD_MAIN_BUS : Int) = 0 ∧ (FORD_CAM_BUS : Int) = 2 := by
  refine ⟨?_, rfl, rfl⟩
  simp [ford_fwd_hook]

/-! ## Floating-point rounding: supporting lemmas -/

theorem round_half_even_err (x : ℚ) : |(round_half_even x : ℚ) - x| ≤ 1 / 2 := by
  have h1 := Int.floor_le x
  have h2 := Int.lt_floor_add_one x
  unfold round_half_even
  split_ifs <;> rw [abs_le] <;> constructor <;> push_cast <;> linarith

theorem round_half_even_nonneg (x : ℚ) (h : 0 ≤ x) : 0 ≤ round_half_even x := by
  have hf : 0 ≤ ⌊x⌋ := Int.floor_nonneg.2 h
  unfold round_half_even
  split_ifs <;> omega

theorem round_half_even_eq (x : ℚ) (m : Int) (h : |x - m| < 1 / 2) :
    round_half_even x = m := by
  have h1 := round_half_even_err x
  have h2 : |((round_half_even x - m : Int) : ℚ)| < 1 := by
    push_cast
    have : (round_half_even x : ℚ) - m = ((round_half_even x : ℚ) - x) + (x - m) := by ring
    rw [this]
    calc |((round_half_even x : ℚ) - x) + (x - m)|
        ≤ |(round_half_even x : ℚ) - x| + |x - m| := abs_add _ _
      _ < 1 / 2 + 1 / 2 := by linarith
      _ = 1 := by norm_num
  rw [← Int.cast_abs] at h2
  have h3 : |round_half_even x - m| < 1 := by exact_mod_cast h2
  have h4 := Int.abs_lt_one_iff.1 h3
  omega

/-- Rounding to `prec` significant bits moves a value by at most the fraction
`1 / 2 ^ prec` of its magnitude. -/
theorem round_to_format_err (prec : Nat) (q : ℚ) :
    |round_to_format prec q - q| ≤ |q| / 2 ^ prec := by
  unfold round_to_format
  by_cases hq : q = 0
  · simp [hq]
  · rw [if_neg hq]
    have hpos : (0 : ℚ) < 2 ^ (Int.log 2 |q| - ((prec : Int) - 1)) := zpow_pos (by norm_num) _
    have hlog : ((2 : ℕ) : ℚ) ^ Int.log 2 |q| ≤ |q| :=
      Int.zpow_log_le_self (by norm_num) (abs_pos.2 hq)
    have hsplit : (2 : ℚ) ^ (Int.log 2 |q| - ((prec : Int) - 1)) =
        2 ^ Int.log 2 |q| / 2 ^ prec * 2 := by
      rw [show Int.log 2 |q| - ((prec : Int) - 1) = Int.log 2 |q| - (prec : Int) + 1 by ring,
        zpow_add_one₀ (by norm_num), zpow_sub₀ (by norm_num), zpow_natCast]
    have hfac : (round_half_even (q / 2 ^ (Int.log 2 |q| - ((prec : Int) - 1))) : ℚ) *
        2 ^ (Int.log 2 |q| - ((prec : Int) - 1)) - q =
        ((round_half_even (q / 2 ^ (Int.log 2 |q| - ((prec : Int) - 1))) : ℚ) -
          q / 2 ^ (Int.log 2 |q| - ((prec : Int) - 1))) *
          2 ^ (Int.log 2 |q| - ((prec : Int) - 1)) := by
      rw [sub_mul, div_mul_cancel₀ _ (ne_of_gt hpos)]
    rw [hfac, abs_mul, abs_of_pos hpos]
    have herr := round_half_even_err (q / 2 ^ (Int.log 2 |q| - ((prec : Int) - 1)))
    calc |(round_half_even (q / 2 ^ (Int.log 2 |q| - ((prec : Int) - 1))) : ℚ) -
          q / 2 ^ (Int.log 2 |q| - ((prec : Int) - 1))| *
          2 ^ (Int.log 2 |q| - ((prec : Int) - 1))
        ≤ 1 / 2 * 2 ^ (Int.log 2 |q| - ((prec : Int) - 1)) :=
          mul_le_mul_of_nonneg_right herr (le_of_lt hpos)
      _ = 2 ^ Int.log 2 |q| / 2 ^ prec := by rw [hsplit]; ring
      _ ≤ |q| / 2 ^ prec := by
          apply div_le_div_of_nonneg_right _ (by positivity)
          simpa using hlog

theorem round_to_format_nonneg (prec : Nat) (q : ℚ) (h : 0 ≤ q) :
    0 ≤ round_to_format prec q := by
  unfold round_to_format
  split_ifs
  · exact le_refl _
  · apply mul_nonneg
    · exact_mod_cast round_half_even_nonneg _ (div_nonneg h (le_of_lt (zpow_pos (by norm_num) _)))
    · exact le_of_lt (zpow_pos (by norm_num) _)

/-- The rounded value of `q`, from its binade `2 ^ k ≤ |q| < 2 ^ (k + 1)` and
the integer significand `m` nearest to the scaled value. -/
theorem round_to_format_eq (prec : Nat) (q : ℚ) (k m : Int)
    (hlo : (2 : ℚ) ^ k ≤ |q|) (hhi : |q| < 2 ^ (k + 1))
    (hm : |q / 2 ^ (k - ((prec : Int) - 1)) - m| < 1 / 2) :
    round_to_format prec q = m * 2 ^ (k - ((prec : Int) - 1)) := by
  have hq0 : 0 < |q| := lt_of_lt_of_le (zpow_pos (by norm_num) _) hlo
  have hq : q ≠ 0 := abs_pos.1 hq0
  have hk : Int.log 2 |q| = k := by
    apply le_antisymm
    · have := (Int.lt_zpow_iff_log_lt (b := 2) (by norm_num) hq0 (x := k + 1)).1
        (by simpa using hhi)
      omega
    · exact (Int.zpow_le_iff_le_log (b := 2) (by norm_num) hq0).1 (by simpa using hlo)
  unfold round_to_format
  rw [if_neg hq, hk, round_half_even_eq _ m hm]

theorem round_to_format_eq_of_pos (prec : Nat) (q : ℚ) (k m : Int)
    (hlo : (2 : ℚ) ^ k ≤ q) (hhi : q < 2 ^ (k + 1))
    (hm1 : (m : ℚ) - 1 / 2 < q / 2 ^ (k - ((prec : Int) - 1)))
    (hm2 : q / 2 ^ (k - ((prec : Int) - 1)) < (m : ℚ) + 1 / 2) :
    round_to_format prec q = m * 2 ^ (k - ((prec : Int) - 1)) := by
  have hq0 : 0 < q := lt_of_lt_of_le (zpow_pos (by norm_num) _) hlo
  apply round_to_format_eq
  · rwa [abs_of_pos hq0]
  · rwa [abs_of_pos hq0]
  · rw [abs_lt]; constructor <;> linarith

/-- The `double` constant `0.01`. -/
theorem to_double_0_01 : to_double (1 / 100) = 5764607523034235 / 576460752303423488 := by
  unfold to_double
  rw [round_to_format_eq_of_pos 53 (1 / 100) (-7) 5764607523034235 (by norm_num) (by norm_num)
    (by norm_num) (by norm_num)]
  norm_num

/-- The `double` constant `3.6`. -/
theorem to_double_3_6 : to_double (36 / 10) = 8106479329266893 / 2251799813685248 := by
  unfold to_double
  rw [round_to_format_eq_of_pos 53 (36 / 10) 1 8106479329266893 (by norm_num) (by norm_num)
    (by norm_num) (by norm_num)]
  norm_num

/-- The `double` constant `0.0002`. -/
theorem to_double_0_0002 :
    to_double (2 / 10000) = 7378697629483821 / 36893488147419103232 := by
  unfold to_double
  rw [round_to_format_eq_of_pos 53 (2 / 10000) (-13) 7378697629483821 (by norm_num)
    (by norm_num) (by norm_num) (by norm_num)]
  norm_num


theorem round_to_format_le (prec : Nat) (q : ℚ) (h : 0 ≤ q) :
    round_to_format prec q ≤ q * (1 + 1 / 2 ^ prec) := by
  have := (abs_le.1 (round_to_format_err prec q)).2
  rw [abs_of_nonneg h] at this
  have e : q * (1 + 1 / 2 ^ prec) = q + q / 2 ^ prec := by ring
  linarith

theorem le_round_to_format (prec : Nat) (q : ℚ) (h : 0 ≤ q) :
    q * (1 - 1 / 2 ^ prec) ≤ round_to_format prec q := by
  have := (abs_le.1 (round_to_format_err prec q)).1
  rw [abs_of_nonneg h] at this
  have e : q * (1 - 1 / 2 ^ prec) = q - q / 2 ^ prec := by ring
  linarith

theorem vehicle_speed_of_raw_nonneg (raw : Nat) : 0 ≤ vehicle_speed_of_raw raw := by
  unfold vehicle_speed_of_raw to_float to_double
  apply round_to_format_nonneg
  apply round_to_format_nonneg
  apply div_nonneg
  · apply round_to_format_nonneg
    exact mul_nonneg (Nat.cast_nonneg _) (round_to_format_nonneg _ _ (by norm_num))
  · exact round_to_format_nonneg _ _ (by norm_num)

/-- The stored speed is within the fraction `2 ^ -23` of `raw / 360`. -/
theorem vehicle_speed_of_raw_err (raw : Nat) :
    |vehicle_speed_of_raw raw - (raw : ℚ) / 360| ≤ (raw : ℚ) / 360 / 2 ^ 23 := by
  have hr : (0 : ℚ) ≤ raw := Nat.cast_nonneg _
  unfold vehicle_speed_of_raw
  rw [to_double_0_01, to_double_3_6]
  unfold to_float to_double
  set A : ℚ := (raw : ℚ) * (5764607523034235 / 576460752303423488) with hA
  have hA0 : 0 ≤ A := mul_nonneg hr (by norm_num)
  set x1 : ℚ := round_to_format 53 A with hx1
  have hx10 : 0 ≤ x1 := round_to_format_nonneg _ _ hA0
  have h1 := round_to_format_le 53 A hA0
  have h1' := le_round_to_format 53 A hA0
  set B : ℚ := x1 / (8106479329266893 / 2251799813685248) with hB
  have hB0 : 0 ≤ B := div_nonneg hx10 (by norm_num)
  set x2 : ℚ := round_to_format 53 B with hx2
  have hx20 : 0 ≤ x2 := round_to_format_nonneg _ _ hB0
  have h2 := round_to_format_le 53 B hB0
  have h2' := le_round_to_format 53 B hB0
  have h3 := round_to_format_le 24 x2 hx20
  have h3' := le_round_to_format 24 x2 hx20
  have hBu : B ≤ A * (1 + 1 / 2 ^ 53) / (8106479329266893 / 2251799813685248) :=
    div_le_div_of_nonneg_right h1 (by norm_num)
  have hBl : A * (1 - 1 / 2 ^ 53) / (8106479329266893 / 2251799813685248) ≤ B :=
    div_le_div_of_nonneg_right h1' (by norm_num)
  have hup : round_to_format 24 x2 ≤
      A * (1 + 1 / 2 ^ 53) / (8106479329266893 / 2251799813685248) * (1 + 1 / 2 ^ 53) *
        (1 + 1 / 2 ^ 24) :=
    calc round_to_format 24 x2 ≤ x2 * (1 + 1 / 2 ^ 24) := h3
      _ ≤ B * (1 + 1 / 2 ^ 53) * (1 + 1 / 2 ^ 24) :=
          mul_le_mul_of_nonneg_right h2 (by norm_num)
      _ ≤ A * (1 + 1 / 2 ^ 53) / (8106479329266893 / 2251799813685248) * (1 + 1 / 2 ^ 53) *
            (1 + 1 / 2 ^ 24) :=
          mul_le_mul_of_nonneg_right (mul_le_mul_of_nonneg_right hBu (by norm_num))
            (by norm_num)
  have hlo : A * (1 - 1 / 2 ^ 53) / (8106479329266893 / 2251799813685248) * (1 - 1 / 2 ^ 53) *
        (1 - 1 / 2 ^ 24) ≤ round_to_format 24 x2 :=
    calc A * (1 - 1 / 2 ^ 53) / (8106479329266893 / 2251799813685248) * (1 - 1 / 2 ^ 53) *
            (1 - 1 / 2 ^ 24)
        ≤ B * (1 - 1 / 2 ^ 53) * (1 - 1 / 2 ^ 24) :=
          mul_le_mul_of_nonneg_right (mul_le_mul_of_nonneg_right hBl (by norm_num))
            (by norm_num)
      _ ≤ x2 * (1 - 1 / 2 ^ 24) := mul_le_mul_of_nonneg_right h2' (by norm_num)
      _ ≤ round_to_format 24 x2 := h3'
  rw [abs_le]
  constructor
  · have e : A * (1 - 1 / 2 ^ 53) / (8106479329266893 / 2251799813685248) * (1 - 1 / 2 ^ 53) *
        (1 - 1 / 2 ^ 24) = (raw : ℚ) *
        ((5764607523034235 / 576460752303423488) * (1 - 1 / 2 ^ 53) /
          (8106479329266893 / 2251799813685248) * (1 - 1 / 2 ^ 53) * (1 - 1 / 2 ^ 24)) := by
      rw [hA]; ring
    have c : (1 : ℚ) / 360 - 1 / 360 / 2 ^ 23 ≤
        (5764607523034235 / 576460752303423488) * (1 - 1 / 2 ^ 53) /
          (8106479329266893 / 2251799813685248) * (1 - 1 / 2 ^ 53) * (1 - 1 / 2 ^ 24) := by
      norm_num
    have := mul_le_mul_of_nonneg_left c hr
    rw [e] at hlo
    linarith
  · have e : A * (1 + 1 / 2 ^ 53) / (8106479329266893 / 2251799813685248) * (1 + 1 / 2 ^ 53) *
        (1 + 1 / 2 ^ 24) = (raw : ℚ) *
        ((5764607523034235 / 576460752303423488) * (1 + 1 / 2 ^ 53) /
          (8106479329266893 / 2251799813685248) * (1 + 1 / 2 ^ 53) * (1 + 1 / 2 ^ 24)) := by
      rw [hA]; ring
    have c : (5764607523034235 / 576460752303423488) * (1 + 1 / 2 ^ 53) /
          (8106479329266893 / 2251799813685248) * (1 + 1 / 2 ^ 53) * (1 + 1 / 2 ^ 24) ≤
        (1 : ℚ) / 360 + 1 / 360 / 2 ^ 23 := by
      norm_num
    have := mul_le_mul_of_nonneg_left c hr
    rw [e] at hup
    linarith


/-- The stored yaw rate is within `2 ^ -21` of `raw * 0.0002 - 6.5`. -/
theorem yaw_rate_of_raw_err (raw : Nat) (h : raw < 2 ^ 16) :
    |yaw_rate_of_raw raw - ((raw : ℚ) * (2 / 10000) - 65 / 10)| ≤ 1 / 2 ^ 21 := by
  have hr : (0 : ℚ) ≤ raw := Nat.cast_nonneg _
  have hr2 : (raw : ℚ) ≤ 65535 := by
    have : raw ≤ 65535 := by omega
    exact_mod_cast this
  unfold yaw_rate_of_raw
  rw [to_double_0_0002]
  unfold to_float to_double
  obtain ⟨A, hA⟩ : ∃ A : ℚ, A = (raw : ℚ) * (7378697629483821 / 36893488147419103232) :=
    ⟨_, rfl⟩
  rw [← hA]
  have hA0 : 0 ≤ A := by rw [hA]; exact mul_nonneg hr (by norm_num)
  have hA1 : A ≤ 14 := by
    rw [hA]
    exact le_trans (mul_le_mul_of_nonneg_right hr2 (by norm_num)) (by norm_num)
  have hAi : |A - (raw : ℚ) * (2 / 10000)| ≤ 65535 * (1 / 2 ^ 66) := by
    have e : A - (raw : ℚ) * (2 / 10000) =
        (raw : ℚ) * (7378697629483821 / 36893488147419103232 - 2 / 10000) := by
      rw [hA]; ring
    rw [e, abs_mul, abs_of_nonneg hr]
    apply mul_le_mul hr2 _ (abs_nonneg _) (by norm_num)
    rw [abs_le]; constructor <;> norm_num
  have hAu : A ≤ (raw : ℚ) * (2 / 10000) + 65535 * (1 / 2 ^ 66) := by
    have := (abs_le.1 hAi).2; linarith
  have hA2 : A ≤ 135 / 10 := by
    have : (raw : ℚ) * (2 / 10000) ≤ 65535 * (2 / 10000) :=
      mul_le_mul_of_nonneg_right hr2 (by norm_num)
    have c : (65535 : ℚ) * (2 / 10000) + 65535 * (1 / 2 ^ 66) ≤ 135 / 10 := by norm_num
    linarith
  obtain ⟨x1, hx1⟩ : ∃ x1 : ℚ, x1 = round_to_format 53 A := ⟨_, rfl⟩
  rw [← hx1]
  have e1 : |x1 - A| ≤ 14 / 2 ^ 53 := by
    have e := round_to_format_err 53 A
    rw [abs_of_nonneg hA0, ← hx1] at e
    exact le_trans e (div_le_div_of_nonneg_right hA1 (by norm_num))
  obtain ⟨D, hD⟩ : ∃ D : ℚ, D = x1 - 65 / 10 := ⟨_, rfl⟩
  rw [← hD]
  have hDabs : |D| ≤ 7 := by
    have t := abs_le.1 e1
    have c : (14 : ℚ) / 2 ^ 53 ≤ 1 / 10 := by norm_num
    rw [abs_le]; constructor <;> linarith [t.1, t.2]
  obtain ⟨x2, hx2⟩ : ∃ x2 : ℚ, x2 = round_to_format 53 D := ⟨_, rfl⟩
  rw [← hx2]
  have e2 : |x2 - D| ≤ 7 / 2 ^ 53 := by
    rw [hx2]
    exact le_trans (round_to_format_err 53 D)
      (div_le_div_of_nonneg_right hDabs (by norm_num))
  have hx2abs : |x2| ≤ 7 + 7 / 2 ^ 53 := by
    have a := abs_le.1 e2
    have b := abs_le.1 hDabs
    rw [abs_le]; constructor <;> linarith [a.1, a.2, b.1, b.2]
  have e3 : |round_to_format 24 x2 - x2| ≤ (7 + 7 / 2 ^ 53) / 2 ^ 24 :=
    le_trans (round_to_format_err 24 x2) (div_le_div_of_nonneg_right hx2abs (by norm_num))
  have a1 := abs_le.1 hAi
  have a2 := abs_le.1 e1
  have a3 := abs_le.1 e2
  have a4 := abs_le.1 e3
  have c : (7 + 7 / 2 ^ 53) / 2 ^ 24 + 7 / 2 ^ 53 + 14 / 2 ^ 53 + 65535 * (1 / 2 ^ 66) ≤
      (1 : ℚ) / 2 ^ 21 := by norm_num
  rw [abs_le]
  constructor <;> linarith [a1.1, a1.2, a2.1, a2.2, a3.1, a3.2, a4.1, a4.2]

theorem vehicle_speed_of_raw_0x1234 : vehicle_speed_of_raw 0x1234 = 6786617 / 524288 := by
  unfold vehicle_speed_of_raw
  rw [to_double_0_01, to_double_3_6]
  have h1 : to_double ((0x1234 : ℕ) * (5764607523034235 / 576460752303423488)) =
      6558366957358285 / 140737488355328 := by
    unfold to_double
    rw [round_to_format_eq_of_pos 53 _ 5 6558366957358285 (by norm_num) (by norm_num)
      (by norm_num) (by norm_num)]
    norm_num
  have h2 : to_double (6558366957358285 / 140737488355328 /
      (8106479329266893 / 2251799813685248)) = 7287074397064761 / 562949953421312 := by
    unfold to_double
    rw [round_to_format_eq_of_pos 53 _ 3 7287074397064761 (by norm_num) (by norm_num)
      (by norm_num) (by norm_num)]
    norm_num
  rw [h1, h2]
  unfold to_float
  rw [round_to_format_eq_of_pos 24 _ 3 13573234 (by norm_num) (by norm_num)
    (by norm_num) (by norm_num)]
  norm_num

theorem yaw_rate_of_raw_0xFFFF : yaw_rate_of_raw 0xFFFF = 13855883 / 2097152 := by
  unfold yaw_rate_of_raw
  rw [to_double_0_0002]
  have h1 : to_double ((0xFFFF : ℕ) * (7378697629483821 / 36893488147419103232)) =
      7378585039493137 / 562949953421312 := by
    unfold to_double
    rw [round_to_format_eq_of_pos 53 _ 3 7378585039493137 (by norm_num) (by norm_num)
      (by norm_num) (by norm_num)]
    norm_num
  have h2 : to_double (7378585039493137 / 562949953421312 - 65 / 10) =
      3719410342254609 / 562949953421312 := by
    unfold to_double
    rw [round_to_format_eq_of_pos 53 _ 2 7438820684509218 (by norm_num) (by norm_num)
      (by norm_num) (by norm_num)]
    norm_num
  rw [h1, h2]
  unfold to_float
  rw [round_to_format_eq_of_pos 24 _ 2 13855883 (by norm_num) (by norm_num)
    (by norm_num) (by norm_num)]
  norm_num

theorem float_to_int_yaw_0xFFFF : float_to_int (13855883 / 2097152) = 6 := by
  unfold float_to_int
  rw [if_pos (by norm_num), Int.floor_eq_iff]
  norm_num

/-! ## Receive hook: supporting lemmas -/

/-- A frame that the address check rejects, or that is not on the main bus,
leaves the state as the address check left it. -/
theorem ford_rx_hook_skipped (fw : Framework) (s : SafetyState) (to_push : CANPacket_t)
    (h : ((ford_rx_valid fw s to_push).1 && GET_BUS to_push == FORD_MAIN_BUS) = false) :
    ford_rx_hook fw s to_push =
      ((if (ford_rx_valid fw s to_push).1 then 1 else 0), (ford_rx_valid fw s to_push).2,
        to_push) := by
  rw [ford_rx_hook]
  simp only [h]
  rfl

theorem ford_rx_hook_on_moving (fw : Framework) (s : SafetyState) (to_push : CANPacket_t)
    (hvalid : (ford_rx_valid fw s to_push).1 = true)
    (hbus : GET_BUS to_push = FORD_MAIN_BUS)
    (haddr : GET_ADDR to_push = MSG_DesiredTorqBrk) :
    ford_rx_hook fw s to_push =
      (1, fw.generic_rx_checks false
        { (ford_rx_valid fw s to_push).2 with
          vehicle_moving := ((GET_BYTE to_push 3 >>> 3) &&& 0x3) == 0 }, to_push) := by
  rw [ford_rx_hook]
  simp only [hvalid, hbus, haddr]
  rfl

theorem ford_rx_hook_on_speed (fw : Framework) (s : SafetyState) (to_push : CANPacket_t)
    (hvalid : (ford_rx_valid fw s to_push).1 = true)
    (hbus : GET_BUS to_push = FORD_MAIN_BUS)
    (haddr : GET_ADDR to_push = MSG_BrakeSysFeatures) :
    ford_rx_hook fw s to_push =
      (1, fw.generic_rx_checks false
        { (ford_rx_valid fw s to_push).2 with
          vehicle_speed := decoded_vehicle_speed to_push }, to_push) := by
  rw [ford_rx_hook]
  simp only [hvalid, hbus, haddr]
  rfl

theorem ford_rx_hook_on_yaw (fw : Framework) (s : SafetyState) (to_push : CANPacket_t)
    (hvalid : (ford_rx_valid fw s to_push).1 = true)
    (hbus : GET_BUS to_push = FORD_MAIN_BUS)
    (haddr : GET_ADDR to_push = MSG_Yaw_Data_FD1) :
    ford_rx_hook fw s to_push =
      (1, fw.generic_rx_checks false
        { (ford_rx_valid fw s to_push).2 with
          ford_yaw_rate := decoded_yaw_rate to_push
          ford_yaw_rate_meas :=
            fw.update_sample (ford_rx_valid fw s to_push).2.ford_yaw_rate_meas
              (float_to_int (decoded_yaw_rate to_push))
          ford_yaw_rate_valid := ((GET_BYTE to_push 6 >>> 4) &&& 0x3) == 3 }, to_push) := by
  rw [ford_rx_hook]
  simp only [hvalid, hbus, haddr]
  rfl

theorem ford_rx_hook_on_gas (fw : Framework) (s : SafetyState) (to_push : CANPacket_t)
    (hvalid : (ford_rx_valid fw s to_push).1 = true)
    (hbus : GET_BUS to_push = FORD_MAIN_BUS)
    (haddr : GET_ADDR to_push = MSG_EngVehicleSpThrottle) :
    ford_rx_hook fw s to_push =
      (1, fw.generic_rx_checks false
        { (ford_rx_valid fw s to_push).2 with
          gas_pressed :=
            decide ((((GET_BYTE to_push 0 &&& 0x03) <<< 8) ||| GET_BYTE to_push 1) > 0) },
        to_push) := by
  rw [ford_rx_hook]
  simp only [hvalid, hbus, haddr]
  rfl

theorem ford_rx_hook_on_brake (fw : Framework) (s : SafetyState) (to_push : CANPacket_t)
    (hvalid : (ford_rx_valid fw s to_push).1 = true)
    (hbus : GET_BUS to_push = FORD_MAIN_BUS)
    (haddr : GET_ADDR to_push = MSG_EngBrakeData) :
    ford_rx_hook fw s to_push =
      (1, fw.generic_rx_checks false
        (fw.pcm_cruise_check
          (GET_BYTE to_push 1 &&& 0x07 == 4 || GET_BYTE to_push 1 &&& 0x07 == 5)
          { (ford_rx_valid fw s to_push).2 with
            brake_pressed := ((GET_BYTE to_push 0 >>> 4) &&& 0x3) == 2 }), to_push) := by
  rw [ford_rx_hook]
  simp only [hvalid, hbus, haddr]
  rfl

theorem ford_rx_hook_on_other (fw : Framework) (s : SafetyState) (to_push : CANPacket_t)
    (hvalid : (ford_rx_valid fw s to_push).1 = true)
    (hbus : GET_BUS to_push = FORD_MAIN_BUS)
    (h1 : GET_ADDR to_push ≠ MSG_DesiredTorqBrk)
    (h2 : GET_ADDR to_push ≠ MSG_BrakeSysFeatures)
    (h3 : GET_ADDR to_push ≠ MSG_Yaw_Data_FD1)
    (h4 : GET_ADDR to_push ≠ MSG_EngVehicleSpThrottle)
    (h5 : GET_ADDR to_push ≠ MSG_EngBrakeData) :
    ford_rx_hook fw s to_push =
      (1, fw.generic_rx_checks (ford_lkas_msg_check (GET_ADDR to_push))
        (ford_rx_valid fw s to_push).2, to_push) := by
  rw [ford_rx_hook]
  simp only [hvalid, hbus, beq_eq_false_iff_ne.2 h1, beq_eq_false_iff_ne.2 h2,
    beq_eq_false_iff_ne.2 h3, beq_eq_false_iff_ne.2 h4, beq_eq_false_iff_ne.2 h5]
  rfl

/-- Bytes `hi` and `lo` read as a 16-bit big-endian value. -/
theorem be16_eq (hi lo : Nat) (h : lo < 256) : (hi <<< 8) ||| lo = 256 * hi + lo := by
  rw [Nat.shiftLeft_eq, Nat.mul_comm]
  exact (Nat.mul_add_lt_is_or (show lo < 2 ^ 8 from h) hi).symm

theorem GET_BYTE_lt (msg : CANPacket_t) (b : Nat) : GET_BYTE msg b < 256 :=
  Nat.mod_lt _ (by norm_num)

theorem decoded_vehicle_speed_eq (to_push : CANPacket_t) :
    decoded_vehicle_speed to_push =
      vehicle_speed_of_raw (256 * GET_BYTE to_push 0 + GET_BYTE to_push 1) := by
  unfold decoded_vehicle_speed
  rw [be16_eq _ _ (GET_BYTE_lt _ _)]

theorem decoded_yaw_rate_eq (to_push : CANPacket_t) :
    decoded_yaw_rate to_push =
      yaw_rate_of_raw (256 * GET_BYTE to_push 2 + GET_BYTE to_push 3) := by
  unfold decoded_yaw_rate
  rw [be16_eq _ _ (GET_BYTE_lt _ _)]

/-- Bits `k .. k+1` of a byte, as the code extracts them. -/
theorem two_bits_eq (b k : Nat) : (b >>> k) &&& 0x3 = b / 2 ^ k % 4 := by
  rw [Nat.shiftRight_eq_div_pow]
  exact Nat.and_pow_two_sub_one_eq_mod _ 2

theorem low_three_bits_eq (b : Nat) : b &&& 0x07 = b % 8 :=
  Nat.and_pow_two_sub_one_eq_mod _ 3

theorem nat_beq_eq_decide (a b : Nat) : (a == b) = decide (a = b) := by
  by_cases h : a = b
  · rw [decide_eq_true h]; exact beq_iff_eq.2 h
  · rw [decide_eq_false h]; exact beq_eq_false_iff_ne.2 h

theorem example_framework_keeps_decoded_fields (degraded : List Nat) :
    (example_framework degraded).keeps_decoded_fields := by
  refine ⟨?_, ?_, ?_⟩
  · intro s to_push
    simp only [ford_rx_valid, example_framework]
    split_ifs <;> exact ⟨rfl, rfl, rfl, rfl, rfl, rfl⟩
  · intro b s
    exact ⟨rfl, rfl, rfl, rfl, rfl, rfl⟩
  · intro b s
    exact ⟨rfl, rfl, rfl, rfl, rfl, rfl⟩

/-! ## Theorems on forwarding from other buses and on the receive hook -/

/-- C11: for every source bus number other than 0 and 2, negative numbers and
bus 1 included, and every frame, `ford_fwd_hook` returns -1. -/
theorem ford_fwd_hook_unknown_bus (bus_num : Int) (to_fwd : CANPacket_t)
    (h0 : bus_num ≠ 0) (h2 : bus_num ≠ 2) :
    ford_fwd_hook bus_num to_fwd = -1 := by
  have e0 : ¬ bus_num = (FORD_MAIN_BUS : Int) := h0
  have e2 : ¬ bus_num = (FORD_CAM_BUS : Int) := h2
  simp only [ford_fwd_hook, e0, e2, if_false]

theorem ford_fwd_hook_unknown_bus_witness :
    ford_fwd_hook 1 lmc_inactive = -1 ∧ ford_fwd_hook (-1) speed_frame = -1 :=
  ⟨ford_fwd_hook_unknown_bus 1 lmc_inactive (by decide) (by decide),
    ford_fwd_hook_unknown_bus (-1) speed_frame (by decide) (by decide)⟩

/-- C12 as stated fails: the stored speed is not exactly raw / 360.  The frame
`speed_frame` (raw 0x1234) is accepted on the main bus; `vehicle_speed` becomes
6786617 / 524288, the `float` nearest to the `double` result, and raw / 360 is
233 / 18. -/
theorem ford_rx_hook_vehicle_speed_not_exact :
    (ford_rx_valid (example_framework []) {} speed_frame).1 = true ∧
      GET_BUS speed_frame = FORD_MAIN_BUS ∧
      GET_ADDR speed_frame = MSG_BrakeSysFeatures ∧
      256 * GET_BYTE speed_frame 0 + GET_BYTE speed_frame 1 = 0x1234 ∧
      (ford_rx_hook (example_framework []) {} speed_frame).2.1.vehicle_speed =
        6786617 / 524288 ∧
      ((256 * GET_BYTE speed_frame 0 + GET_BYTE speed_frame 1 : Nat) : ℚ) / 360 = 233 / 18 ∧
      (ford_rx_hook (example_framework []) {} speed_frame).2.1.vehicle_speed ≠
        ((256 * GET_BYTE speed_frame 0 + GET_BYTE speed_frame 1 : Nat) : ℚ) / 360 := by
  have hraw : 256 * GET_BYTE speed_frame 0 + GET_BYTE speed_frame 1 = 0x1234 := by decide
  have hst := ford_rx_hook_on_speed (example_framework []) {} speed_frame rfl (by decide)
    (by decide)
  have hv : (ford_rx_hook (example_framework []) {} speed_frame).2.1.vehicle_speed =
      6786617 / 524288 := by
    rw [hst]
    show decoded_vehicle_speed speed_frame = 6786617 / 524288
    rw [decoded_vehicle_speed_eq, hraw, vehicle_speed_of_raw_0x1234]
  refine ⟨rfl, by decide, by decide, hraw, hv, ?_, ?_⟩
  · rw [hraw]; norm_num
  · rw [hv, hraw]; norm_num

/-- C12 amended: for every BrakeSysFeatures frame accepted by the address check
on the main bus, `ford_rx_hook` assigns to `vehicle_speed` the value of the C
expression raw * 0.01 / 3.6, computed in `double` and stored as a `float`, raw
being the 16-bit big-endian value of bytes 0 and 1, and then calls
`generic_rx_checks(false)`.  The assigned speed is within the fraction 2^-23 of
raw / 360 and is not negative, and it is the speed of the resulting state when
`generic_rx_checks` does not write `vehicle_speed`. -/
theorem ford_rx_hook_sets_vehicle_speed (fw : Framework) (s : SafetyState)
    (to_push : CANPacket_t)
    (hvalid : (ford_rx_valid fw s to_push).1 = true)
    (hbus : GET_BUS to_push = FORD_MAIN_BUS)
    (haddr : GET_ADDR to_push = MSG_BrakeSysFeatures) :
    (ford_rx_hook fw s to_push).2.1 =
        fw.generic_rx_checks false
          { (ford_rx_valid fw s to_push).2 with
            vehicle_speed :=
              vehicle_speed_of_raw (256 * GET_BYTE to_push 0 + GET_BYTE to_push 1) } ∧
      256 * GET_BYTE to_push 0 + GET_BYTE to_push 1 < 2 ^ 16 ∧
      vehicle_speed_of_raw (256 * GET_BYTE to_push 0 + GET_BYTE to_push 1) =
        to_float (to_double
          (to_double (((256 * GET_BYTE to_push 0 + GET_BYTE to_push 1 : Nat) : ℚ) *
            to_double (1 / 100)) / to_double (36 / 10))) ∧
      |vehicle_speed_of_raw (256 * GET_BYTE to_push 0 + GET_BYTE to_push 1) -
          ((256 * GET_BYTE to_push 0 + GET_BYTE to_push 1 : Nat) : ℚ) / 360| ≤
        ((256 * GET_BYTE to_push 0 + GET_BYTE to_push 1 : Nat) : ℚ) / 360 / 2 ^ 23 ∧
      (0 : ℚ) ≤ vehicle_speed_of_raw (256 * GET_BYTE to_push 0 + GET_BYTE to_push 1) ∧
      ((∀ b t, (fw.generic_rx_checks b t).vehicle_speed = t.vehicle_speed) →
        (ford_rx_hook fw s to_push).2.1.vehicle_speed =
            vehicle_speed_of_raw (256 * GET_BYTE to_push 0 + GET_BYTE to_push 1) ∧
          (0 : ℚ) ≤ (ford_rx_hook fw s to_push).2.1.vehicle_speed) := by
  have hb0 := GET_BYTE_lt to_push 0
  have hb1 := GET_BYTE_lt to_push 1
  have hnn := vehicle_speed_of_raw_nonneg (256 * GET_BYTE to_push 0 + GET_BYTE to_push 1)
  have hst := ford_rx_hook_on_speed fw s to_push hvalid hbus haddr
  rw [decoded_vehicle_speed_eq] at hst
  refine ⟨by rw [hst], by omega, rfl, vehicle_speed_of_raw_err _, hnn, ?_⟩
  intro hkeep
  have hv : (ford_rx_hook fw s to_push).2.1.vehicle_speed =
      vehicle_speed_of_raw (256 * GET_BYTE to_push 0 + GET_BYTE to_push 1) := by
    rw [hst, hkeep]
  exact ⟨hv, by rw [hv]; exact hnn⟩

theorem ford_rx_hook_sets_vehicle_speed_witness :
    256 * GET_BYTE speed_frame 0 + GET_BYTE speed_frame 1 = 0x1234 ∧
      (ford_rx_hook (example_framework []) {} speed_frame).2.1.vehicle_speed =
        vehicle_speed_of_raw (256 * GET_BYTE speed_frame 0 + GET_BYTE speed_frame 1) :=
  ⟨by decide,
    ((ford_rx_hook_sets_vehicle_speed (example_framework []) {} speed_frame
      rfl (by decide) (by decide)).2.2.2.2.2 (fun _ _ => rfl)).1⟩

/-- C13 as stated fails: the stored yaw rate is not exactly
raw * 0.0002 - 6.5.  The frame `yaw_frame` (raw 0xFFFF) is accepted on the main
bus; `ford_yaw_rate` becomes 13855883 / 2097152, the `float` nearest to the
`double` result, and raw * 0.0002 - 6.5 is 6607 / 1000. -/
theorem ford_rx_hook_yaw_rate_not_exact :
    (ford_rx_valid (example_framework []) {} yaw_frame).1 = true ∧
      GET_BUS yaw_frame = FORD_MAIN_BUS ∧
      GET_ADDR yaw_frame = MSG_Yaw_Data_FD1 ∧
      256 * GET_BYTE yaw_frame 2 + GET_BYTE yaw_frame 3 = 0xFFFF ∧
      (ford_rx_hook (example_framework []) {} yaw_frame).2.1.ford_yaw_rate =
        13855883 / 2097152 ∧
      ((256 * GET_BYTE yaw_frame 2 + GET_BYTE yaw_frame 3 : Nat) : ℚ) * (2 / 10000) - 65 / 10 =
        6607 / 1000 ∧
      (ford_rx_hook (example_framework []) {} yaw_frame).2.1.ford_yaw_rate ≠
        ((256 * GET_BYTE yaw_frame 2 + GET_BYTE yaw_frame 3 : Nat) : ℚ) * (2 / 10000) -
          65 / 10 := by
  have hraw : 256 * GET_BYTE yaw_frame 2 + GET_BYTE yaw_frame 3 = 0xFFFF := by decide
  have hst := ford_rx_hook_on_yaw (example_framework []) {} yaw_frame rfl (by decide)
    (by decide)
  have hv : (ford_rx_hook (example_framework []) {} yaw_frame).2.1.ford_yaw_rate =
      13855883 / 2097152 := by
    rw [hst]
    show decoded_yaw_rate yaw_frame = 13855883 / 2097152
    rw [decoded_yaw_rate_eq, hraw, yaw_rate_of_raw_0xFFFF]
  refine ⟨rfl, by decide, by decide, hraw, hv, ?_, ?_⟩
  · rw [hraw]; norm_num
  · rw [hv, hraw]; norm_num

/-- C13 amended: for every Yaw_Data_FD1 frame accepted by the address check on
the main bus, `ford_rx_hook` assigns to `ford_yaw_rate` the value of the C
expression raw * 0.0002 - 6.5, computed in `double` and stored as a `float`,
raw being the 16-bit big-endian value of bytes 2 and 3; that value is within
2^-21 of raw * 0.0002 - 6.5.  The hook passes it, converted to `int`, to
`update_sample` on `ford_yaw_rate_meas`, and assigns to `ford_yaw_rate_valid`
whether the 2-bit quality sub-field (bits 4-5 of byte 6) equals 3. -/
theorem ford_rx_hook_sets_yaw_rate (fw : Framework) (s : SafetyState)
    (to_push : CANPacket_t)
    (hvalid : (ford_rx_valid fw s to_push).1 = true)
    (hbus : GET_BUS to_push = FORD_MAIN_BUS)
    (haddr : GET_ADDR to_push = MSG_Yaw_Data_FD1) :
    (ford_rx_hook fw s to_push).2.1 =
        fw.generic_rx_checks false
          { (ford_rx_valid fw s to_push).2 with
            ford_yaw_rate := yaw_rate_of_raw (256 * GET_BYTE to_push 2 + GET_BYTE to_push 3)
            ford_yaw_rate_meas :=
              fw.update_sample (ford_rx_valid fw s to_push).2.ford_yaw_rate_meas
                (float_to_int
                  (yaw_rate_of_raw (256 * GET_BYTE to_push 2 + GET_BYTE to_push 3)))
            ford_yaw_rate_valid := decide (GET_BYTE to_push 6 / 2 ^ 4 % 4 = 3) } ∧
      256 * GET_BYTE to_push 2 + GET_BYTE to_push 3 < 2 ^ 16 ∧
      yaw_rate_of_raw (256 * GET_BYTE to_push 2 + GET_BYTE to_push 3) =
        to_float (to_double
          (to_double (((256 * GET_BYTE to_push 2 + GET_BYTE to_push 3 : Nat) : ℚ) *
            to_double (2 / 10000)) - 65 / 10)) ∧
      |yaw_rate_of_raw (256 * GET_BYTE to_push 2 + GET_BYTE to_push 3) -
          (((256 * GET_BYTE to_push 2 + GET_BYTE to_push 3 : Nat) : ℚ) * (2 / 10000) -
            65 / 10)| ≤ 1 / 2 ^ 21 ∧
      ((∀ b t, (fw.generic_rx_checks b t).ford_yaw_rate = t.ford_yaw_rate ∧
          (fw.generic_rx_checks b t).ford_yaw_rate_valid = t.ford_yaw_rate_valid) →
        (ford_rx_hook fw s to_push).2.1.ford_yaw_rate =
            yaw_rate_of_raw (256 * GET_BYTE to_push 2 + GET_BYTE to_push 3) ∧
          ((ford_rx_hook fw s to_push).2.1.ford_yaw_rate_valid = true ↔
            GET_BYTE to_push 6 / 2 ^ 4 % 4 = 3)) := by
  have hb2 := GET_BYTE_lt to_push 2
  have hb3 := GET_BYTE_lt to_push 3
  have hlt : 256 * GET_BYTE to_push 2 + GET_BYTE to_push 3 < 2 ^ 16 := by omega
  have hst := ford_rx_hook_on_yaw fw s to_push hvalid hbus haddr
  have hq : ((GET_BYTE to_push 6 >>> 4) &&& 0x3 == 3) =
      decide (GET_BYTE to_push 6 / 2 ^ 4 % 4 = 3) := by
    rw [two_bits_eq, nat_beq_eq_decide]
  rw [decoded_yaw_rate_eq, hq] at hst
  refine ⟨by rw [hst], hlt, rfl, yaw_rate_of_raw_err _ hlt, ?_⟩
  intro hkeep
  rw [hst, (hkeep _ _).1, (hkeep _ _).2]
  exact ⟨rfl, by simp⟩

theorem ford_rx_hook_sets_yaw_rate_witness :
    256 * GET_BYTE yaw_frame 2 + GET_BYTE yaw_frame 3 = 0xFFFF ∧
      GET_BYTE yaw_frame 6 / 2 ^ 4 % 4 = 3 ∧
      (ford_rx_hook (example_framework []) {} yaw_frame).2.1.ford_yaw_rate =
        yaw_rate_of_raw (256 * GET_BYTE yaw_frame 2 + GET_BYTE yaw_frame 3) :=
  ⟨by decide, by decide,
    ((ford_rx_hook_sets_yaw_rate (example_framework []) {} yaw_frame
      rfl (by decide) (by decide)).2.2.2.2 (fun _ _ => ⟨rfl, rfl⟩)).1⟩

/-- C14: for every EngBrakeData frame accepted by the address check on the main
bus, `ford_rx_hook` assigns to `brake_pressed` whether the 2-bit sub-field
(bits 4-5 of byte 0) equals 2, and then passes to `pcm_cruise_check` a value
that is true exactly when the 3-bit cruise state (low three bits of byte 1) is
4 or 5. -/
theorem ford_rx_hook_sets_brake_and_cruise (fw : Framework) (s : SafetyState)
    (to_push : CANPacket_t)
    (hvalid : (ford_rx_valid fw s to_push).1 = true)
    (hbus : GET_BUS to_push = FORD_MAIN_BUS)
    (haddr : GET_ADDR to_push = MSG_EngBrakeData) :
    (ford_rx_hook fw s to_push).2.1 =
        fw.generic_rx_checks false
          (fw.pcm_cruise_check
            (decide (GET_BYTE to_push 1 % 8 = 4 ∨ GET_BYTE to_push 1 % 8 = 5))
            { (ford_rx_valid fw s to_push).2 with
              brake_pressed := decide (GET_BYTE to_push 0 / 2 ^ 4 % 4 = 2) }) ∧
      ((∀ b t, (fw.generic_rx_checks b t).brake_pressed = t.brake_pressed ∧
          (fw.pcm_cruise_check b t).brake_pressed = t.brake_pressed) →
        ((ford_rx_hook fw s to_push).2.1.brake_pressed = true ↔
          GET_BYTE to_push 0 / 2 ^ 4 % 4 = 2)) := by
  have hst := ford_rx_hook_on_brake fw s to_push hvalid hbus haddr
  have hb : ((GET_BYTE to_push 0 >>> 4) &&& 0x3 == 2) =
      decide (GET_BYTE to_push 0 / 2 ^ 4 % 4 = 2) := by
    rw [two_bits_eq, nat_beq_eq_decide]
  have hc : (GET_BYTE to_push 1 &&& 0x07 == 4 || GET_BYTE to_push 1 &&& 0x07 == 5) =
      decide (GET_BYTE to_push 1 % 8 = 4 ∨ GET_BYTE to_push 1 % 8 = 5) := by
    rw [low_three_bits_eq, nat_beq_eq_decide, nat_beq_eq_decide, Bool.decide_or]
  rw [hb, hc] at hst
  refine ⟨by rw [hst], ?_⟩
  intro hkeep
  rw [hst, (hkeep _ _).1, (hkeep _ _).2]
  simp

theorem ford_rx_hook_sets_brake_and_cruise_witness :
    GET_BYTE brake_frame 0 / 2 ^ 4 % 4 = 2 ∧ GET_BYTE brake_frame 1 % 8 = 4 ∧
      (ford_rx_hook (example_framework []) {} brake_frame).2.1.brake_pressed = true ∧
      (ford_rx_hook (example_framework []) {} brake_frame).2.1.cruise_engaged_prev = true :=
  ⟨by decide, by decide,
    ((ford_rx_hook_sets_brake_and_cruise (example_framework []) {} brake_frame
      rfl (by decide) (by decide)).2 (fun _ _ => ⟨rfl, rfl⟩)).2 (by decide),
    by
      rw [(ford_rx_hook_sets_brake_and_cruise (example_framework []) {} brake_frame
        rfl (by decide) (by decide)).1]
      simp [example_framework]
      decide⟩

/-- C15: in `ford_rx_hook` each decoded field is written only on its own source
message.  When the framework functions do not write the decoded fields, for
every received frame `vehicle_moving` changes only if the address is 0x213,
`vehicle_speed` only if 0x415, `ford_yaw_rate` and `ford_yaw_rate_valid` only if
0x91, `gas_pressed` only if 0x204 and `brake_pressed` only if 0x165; a frame
with any other address leaves all of them unchanged. -/
theorem ford_rx_hook_writes_by_source (fw : Framework) (hfw : fw.keeps_decoded_fields)
    (s : SafetyState) (to_push : CANPacket_t) :
    ((ford_rx_hook fw s to_push).2.1.vehicle_moving ≠ s.vehicle_moving →
        GET_ADDR to_push = 0x213) ∧
      ((ford_rx_hook fw s to_push).2.1.vehicle_speed ≠ s.vehicle_speed →
        GET_ADDR to_push = 0x415) ∧
      ((ford_rx_hook fw s to_push).2.1.ford_yaw_rate ≠ s.ford_yaw_rate ∨
        (ford_rx_hook fw s to_push).2.1.ford_yaw_rate_valid ≠ s.ford_yaw_rate_valid →
        GET_ADDR to_push = 0x91) ∧
      ((ford_rx_hook fw s to_push).2.1.gas_pressed ≠ s.gas_pressed →
        GET_ADDR to_push = 0x204) ∧
      ((ford_rx_hook fw s to_push).2.1.brake_pressed ≠ s.brake_pressed →
        GET_ADDR to_push = 0x165) ∧
      (GET_ADDR to_push ∉ [0x213, 0x415, 0x91, 0x204, 0x165] →
        same_decoded (ford_rx_hook fw s to_push).2.1 s) := by
  obtain ⟨hA, hP, hG⟩ := hfw
  obtain ⟨c1, c2, c3, c4, c5, c6⟩ := hA s to_push
  have G1 : ∀ b t, (fw.generic_rx_checks b t).vehicle_moving = t.vehicle_moving :=
    fun b t => (hG b t).1
  have G2 : ∀ b t, (fw.generic_rx_checks b t).vehicle_speed = t.vehicle_speed :=
    fun b t => (hG b t).2.1
  have G3 : ∀ b t, (fw.generic_rx_checks b t).ford_yaw_rate = t.ford_yaw_rate :=
    fun b t => (hG b t).2.2.1
  have G4 : ∀ b t, (fw.generic_rx_checks b t).ford_yaw_rate_valid = t.ford_yaw_rate_valid :=
    fun b t => (hG b t).2.2.2.1
  have G5 : ∀ b t, (fw.generic_rx_checks b t).gas_pressed = t.gas_pressed :=
    fun b t => (hG b t).2.2.2.2.1
  have G6 : ∀ b t, (fw.generic_rx_checks b t).brake_pressed = t.brake_pressed :=
    fun b t => (hG b t).2.2.2.2.2
  have P1 : ∀ b t, (fw.pcm_cruise_check b t).vehicle_moving = t.vehicle_moving :=
    fun b t => (hP b t).1
  have P2 : ∀ b t, (fw.pcm_cruise_check b t).vehicle_speed = t.vehicle_speed :=
    fun b t => (hP b t).2.1
  have P3 : ∀ b t, (fw.pcm_cruise_check b t).ford_yaw_rate = t.ford_yaw_rate :=
    fun b t => (hP b t).2.2.1
  have P4 : ∀ b t, (fw.pcm_cruise_check b t).ford_yaw_rate_valid = t.ford_yaw_rate_valid :=
    fun b t => (hP b t).2.2.2.1
  have P5 : ∀ b t, (fw.pcm_cruise_check b t).gas_pressed = t.gas_pressed :=
    fun b t => (hP b t).2.2.2.2.1
  by_cases hc : ((ford_rx_valid fw s to_push).1 && GET_BUS to_push == FORD_MAIN_BUS) = true
  · rw [Bool.and_eq_true, beq_iff_eq] at hc
    obtain ⟨hvalid, hbus⟩ := hc
    by_cases a1 : GET_ADDR to_push = MSG_DesiredTorqBrk
    · rw [ford_rx_hook_on_moving fw s to_push hvalid hbus a1]
      simp only [same_decoded, G1, G2, G3, G4, G5, G6, c2, c3, c4, c5, c6, a1,
        MSG_DesiredTorqBrk]
      simp
    · by_cases a2 : GET_ADDR to_push = MSG_BrakeSysFeatures
      · rw [ford_rx_hook_on_speed fw s to_push hvalid hbus a2]
        simp only [same_decoded, G1, G2, G3, G4, G5, G6, c1, c3, c4, c5, c6, a2,
          MSG_BrakeSysFeatures]
        simp
      · by_cases a3 : GET_ADDR to_push = MSG_Yaw_Data_FD1
        · rw [ford_rx_hook_on_yaw fw s to_push hvalid hbus a3]
          simp only [same_decoded, G1, G2, G3, G4, G5, G6, c1, c2, c5, c6, a3,
            MSG_Yaw_Data_FD1]
          simp
        · by_cases a4 : GET_ADDR to_push = MSG_EngVehicleSpThrottle
          · rw [ford_rx_hook_on_gas fw s to_push hvalid hbus a4]
            simp only [same_decoded, G1, G2, G3, G4, G5, G6, c1, c2, c3, c4, c6, a4,
              MSG_EngVehicleSpThrottle]
            simp
          · by_cases a5 : GET_ADDR to_push = MSG_EngBrakeData
            · rw [ford_rx_hook_on_brake fw s to_push hvalid hbus a5]
              simp only [same_decoded, G1, G2, G3, G4, G5, G6, P1, P2, P3, P4, P5,
                c1, c2, c3, c4, c5, a5, MSG_EngBrakeData]
              simp
            · rw [ford_rx_hook_on_other fw s to_push hvalid hbus a1 a2 a3 a4 a5]
              simp only [same_decoded, G1, G2, G3, G4, G5, G6, c1, c2, c3, c4, c5, c6]
              simp
  · rw [Bool.not_eq_true] at hc
    rw [ford_rx_hook_skipped fw s to_push hc]
    simp only [same_decoded, c1, c2, c3, c4, c5, c6]
    simp

theorem ford_rx_hook_writes_by_source_witness :
    GET_ADDR lmc_inactive ∉ [0x213, 0x415, 0x91, 0x204, 0x165] ∧
      same_decoded (ford_rx_hook (example_framework []) engaged_at_speed lmc_inactive).2.1
        engaged_at_speed :=
  ⟨by decide,
    (ford_rx_hook_writes_by_source (example_framework [])
      (example_framework_keeps_decoded_fields []) engaged_at_speed lmc_inactive).2.2.2.2.2
      (by decide)⟩

/-- C16 as stated fails: the BrakeSysFeatures frame `speed_frame` arrives on the
main bus while the address check reports 0x415 invalid; `vehicle_speed` keeps
its previous value 20 and does not take the frame's decoded value. -/
theorem ford_rx_hook_degraded_frame_not_written :
    (ford_rx_valid (example_framework [0x415]) engaged_at_speed speed_frame).1 = false ∧
      GET_BUS speed_frame = FORD_MAIN_BUS ∧
      GET_ADDR speed_frame = MSG_BrakeSysFeatures ∧
      (ford_rx_hook (example_framework [0x415]) engaged_at_speed speed_frame).2.1.vehicle_speed
        = 20 ∧
      decoded_vehicle_speed speed_frame = 6786617 / 524288 ∧
      (ford_rx_hook (example_framework [0x415]) engaged_at_speed speed_frame).2.1.vehicle_speed
        ≠ decoded_vehicle_speed speed_frame := by
  have hinv : (ford_rx_valid (example_framework [0x415]) engaged_at_speed speed_frame).1 =
      false := by decide
  have hd : decoded_vehicle_speed speed_frame = 6786617 / 524288 := by
    rw [decoded_vehicle_speed_eq]
    have : 256 * GET_BYTE speed_frame 0 + GET_BYTE speed_frame 1 = 0x1234 := by decide
    rw [this, vehicle_speed_of_raw_0x1234]
  have hs : (ford_rx_hook (example_framework [0x415]) engaged_at_speed
      speed_frame).2.1.vehicle_speed = 20 := by
    rw [ford_rx_hook_skipped _ _ _ (by rw [hinv]; rfl)]
    rfl
  refine ⟨hinv, by decide, by decide, hs, hd, ?_⟩
  rw [hs, hd]; norm_num

/-- C16 amended: when the address check reports a received frame invalid,
`ford_rx_hook` decodes nothing from it: it returns 0 and the state is the one
the address check left, so no decoded value is written and no previously read
field is reset. -/
theorem ford_rx_hook_invalid_frame_skipped (fw : Framework) (s : SafetyState)
    (to_push : CANPacket_t)
    (hinvalid : (ford_rx_valid fw s to_push).1 = false) :
    ford_rx_hook fw s to_push = (0, (ford_rx_valid fw s to_push).2, to_push) ∧
      (fw.keeps_decoded_fields → same_decoded (ford_rx_hook fw s to_push).2.1 s) := by
  have hst : ford_rx_hook fw s to_push = (0, (ford_rx_valid fw s to_push).2, to_push) := by
    rw [ford_rx_hook_skipped fw s to_push (by rw [hinvalid]; rfl), hinvalid]
    rfl
  refine ⟨hst, ?_⟩
  intro hfw
  rw [hst]
  exact hfw.1 s to_push

theorem ford_rx_hook_invalid_frame_skipped_witness :
    (ford_rx_valid (example_framework [0x415]) engaged_at_speed speed_frame).1 = false ∧
      (ford_rx_hook (example_framework [0x415]) engaged_at_speed speed_frame).1 = 0 ∧
      same_decoded
        (ford_rx_hook (example_framework [0x415]) engaged_at_speed speed_frame).2.1
        engaged_at_speed :=
  ⟨by decide,
    congrArg Prod.fst
      (ford_rx_hook_invalid_frame_skipped (example_framework [0x415]) engaged_at_speed
        speed_frame (by decide)).1,
    (ford_rx_hook_invalid_frame_skipped (example_framework [0x415]) engaged_at_speed
      speed_frame (by decide)).2 (example_framework_keeps_decoded_fields [0x415])⟩

/-! ## Theorems on the tables, on initialization and across the hooks -/

/-- C17: the table `ford_addr_checks` does not have one entry per monitored
address.  It has seven entries; entries 0 and 5 both have (0x415, bus 0) as
their first variant and entries 1 and 6 both have (0x91, bus 0), so the first
variants are not pairwise distinct. -/
theorem ford_addr_checks_repeats_addresses :
    ford_addr_checks.length = 7 ∧
      (ford_addr_checks.map first_variant).get? 0 = some (0x415, 0) ∧
      (ford_addr_checks.map first_variant).get? 5 = some (0x415, 0) ∧
      (ford_addr_checks.map first_variant).get? 1 = some (0x91, 0) ∧
      (ford_addr_checks.map first_variant).get? 6 = some (0x91, 0) ∧
      ¬ (ford_addr_checks.map first_variant).Nodup := by
  refine ⟨rfl, rfl, rfl, rfl, rfl, ?_⟩
  decide

/-- C18: `ford_init` does not clear `ford_yaw_rate_meas`.  After the frame
`yaw_frame` has been received the buffer holds one sample, 6 (the yaw rate
13855883 / 2097152 converted to `int`); `ford_init` then sets `ford_yaw_rate`
to 0 and `ford_yaw_rate_valid` to false and returns the Ford receive check
table, and the buffer still holds that sample, while its initial value holds
none. -/
theorem ford_init_keeps_yaw_rate_meas :
    (ford_rx_hook (example_framework []) {} yaw_frame).2.1.ford_yaw_rate_meas.values =
        [6] ∧
      (ford_init (ford_rx_hook (example_framework []) {} yaw_frame).2.1 0).2.ford_yaw_rate_meas.values
        = [6] ∧
      decoded_yaw_rate yaw_frame = 13855883 / 2097152 ∧
      float_to_int (decoded_yaw_rate yaw_frame) = 6 ∧
      ({} : SafetyState).ford_yaw_rate_meas.values = [] ∧
      (ford_init (ford_rx_hook (example_framework []) {} yaw_frame).2.1 0).2.ford_yaw_rate = 0 ∧
      (ford_init (ford_rx_hook (example_framework []) {} yaw_frame).2.1 0).2.ford_yaw_rate_valid
        = false ∧
      (ford_init (ford_rx_hook (example_framework []) {} yaw_frame).2.1 0).1 = ford_rx_checks := by
  have hst := ford_rx_hook_on_yaw (example_framework []) {} yaw_frame rfl (by decide)
    (by decide)
  have hd : decoded_yaw_rate yaw_frame = 13855883 / 2097152 := by
    rw [decoded_yaw_rate_eq]
    have : 256 * GET_BYTE yaw_frame 2 + GET_BYTE yaw_frame 3 = 0xFFFF := by decide
    rw [this, yaw_rate_of_raw_0xFFFF]
  have hi : float_to_int (decoded_yaw_rate yaw_frame) = 6 := by
    rw [hd, float_to_int_yaw_0xFFFF]
  have hm : (ford_rx_hook (example_framework []) {} yaw_frame).2.1.ford_yaw_rate_meas.values =
      [6] := by
    rw [hst]
    show [float_to_int (decoded_yaw_rate yaw_frame)] = [6]
    rw [hi]
  have k1 : ∀ t : SafetyState, (ford_init t 0).2.ford_yaw_rate_meas = t.ford_yaw_rate_meas :=
    fun _ => rfl
  have k2 : ∀ t : SafetyState, (ford_init t 0).2.ford_yaw_rate = 0 := fun _ => rfl
  have k3 : ∀ t : SafetyState, (ford_init t 0).2.ford_yaw_rate_valid = false := fun _ => rfl
  have k4 : ∀ t : SafetyState, (ford_init t 0).1 = ford_rx_checks := fun _ => rfl
  refine ⟨hm, ?_, hd, hi, rfl, k2 _, k3 _, k4 _⟩
  rw [k1]
  exact hm

/-- C19: for every address a, `ford_lkas_msg_check` holds exactly when
(a, bus 0, length 8) is an entry of `FORD_TX_MSGS` and a is not
Steering_Data_FD1; for those addresses, and only for those, a camera-bus frame
is not forwarded to the main bus. -/
theorem ford_lkas_msg_check_iff_tx_main (a : Nat) :
    (ford_lkas_msg_check a = true ↔
        (⟨a, 0, 8⟩ : CanMsg) ∈ FORD_TX_MSGS ∧ a ≠ MSG_Steering_Data_FD1) ∧
      (∀ to_fwd : CANPacket_t, GET_ADDR to_fwd = a →
        (ford_fwd_hook (FORD_CAM_BUS : Int) to_fwd ≠ (FORD_MAIN_BUS : Int) ↔
          (⟨a, 0, 8⟩ : CanMsg) ∈ FORD_TX_MSGS ∧ a ≠ MSG_Steering_Data_FD1)) := by
  have hiff : ford_lkas_msg_check a = true ↔
      (⟨a, 0, 8⟩ : CanMsg) ∈ FORD_TX_MSGS ∧ a ≠ MSG_Steering_Data_FD1 := by
    simp only [ford_lkas_msg_check, FORD_TX_MSGS, MSG_ACCDATA_3, MSG_Lane_Assist_Data1,
      MSG_LateralMotionControl, MSG_IPMA_Data, MSG_Steering_Data_FD1, Bool.or_eq_true,
      beq_iff_eq, List.mem_cons, CanMsg.mk.injEq, List.mem_singleton]
    constructor
    · rintro (((h | h) | h) | h) <;> subst h <;> simp
    · rintro ⟨h | h | h | h | h | h, hne⟩ <;> simp_all
  refine ⟨hiff, ?_⟩
  intro to_fwd haddr
  rw [← hiff, ← haddr]
  cases h : ford_lkas_msg_check (GET_ADDR to_fwd) <;>
    simp [ford_fwd_hook, h, FORD_CAM_BUS, FORD_MAIN_BUS]

theorem ford_lkas_msg_check_iff_tx_main_witness :
    ford_lkas_msg_check 0x3D3 = true ∧
      ford_fwd_hook (FORD_CAM_BUS : Int) lmc_inactive ≠ (FORD_MAIN_BUS : Int) :=
  ⟨(ford_lkas_msg_check_iff_tx_main 0x3D3).1.2 (by decide),
    ((ford_lkas_msg_check_iff_tx_main 0x3D3).2 lmc_inactive (by decide)).2 (by decide)⟩

/-- C20: there is an 8-byte LateralMotionControl frame on bus 0, with control
mode 0, curvature 1000, curvature-rate 4096, path-angle 1000 and path-offset
512, for which `ford_tx_hook` returns 1 in every state, also with
`controls_allowed` false and the yaw rate invalid. -/
theorem ford_tx_hook_allows_inactive_lmc :
    ∃ to_send : CANPacket_t,
      GET_ADDR to_send = MSG_LateralMotionControl ∧ GET_BUS to_send = 0 ∧
        GET_LEN to_send = 8 ∧ (∀ b, to_send.data b < 256) ∧
        steer_control_type to_send = 0 ∧ curvature to_send = 1000 ∧
        curvature_rate to_send = 4096 ∧ path_angle to_send = 1000 ∧
        path_offset to_send = 512 ∧
        (∀ s : SafetyState, (ford_tx_hook s to_send).1 = 1) ∧
        (ford_tx_hook { controls_allowed := false, ford_yaw_rate_valid := false }
          to_send).1 = 1 := by
  have hall : ∀ s : SafetyState, (ford_tx_hook s lmc_inactive).1 = 1 := by
    intro s
    have h1 : msg_allowed lmc_inactive FORD_TX_MSGS = true := by decide
    have h2 : GET_ADDR lmc_inactive = MSG_LateralMotionControl := by decide
    have h3 : curvature_rate lmc_inactive = INACTIVE_CURVATURE_RATE := by decide
    have h4 : path_angle lmc_inactive = INACTIVE_PATH_ANGLE := by decide
    have h5 : path_offset lmc_inactive = INACTIVE_PATH_OFFSET := by decide
    have h6 : steer_control_type lmc_inactive = 0 := by decide
    have h7 : curvature lmc_inactive = INACTIVE_CURVATURE := by decide
    rw [ford_tx_hook_verdict, h1, h2, h3, h4, h5, h6, h7]
    simp [MSG_LateralMotionControl, MSG_Steering_Data_FD1, MSG_Lane_Assist_Data1]
  refine ⟨lmc_inactive, by decide, by decide, by decide, ?_, by decide, by decide, by decide,
    by decide, by decide, hall, hall _⟩
  intro b
  show ([0x7D, 0x10, 0x00, 0x7D, 0x00, 0x80, 0x00, 0x00] : List Nat).getD b 0 < 256
  have hl : ∀ x ∈ ([0x7D, 0x10, 0x00, 0x7D, 0x00, 0x80, 0x00, 0x00] : List Nat), x < 256 := by
    decide
  rw [List.getD_eq_getElem?_getD]
  cases hb : ([0x7D, 0x10, 0x00, 0x7D, 0x00, 0x80, 0x00, 0x00] : List Nat)[b]? with
  | none => simp
  | some x => exact hl x (List.getElem?_mem hb)

end Ford
